import Mathlib

/-!
SilhouetteTessellation11: shader variant keys, cache registration and selection.

A shallow embedding of the variant-key logic of `SilhouetteTessellation11.cpp`:

* the flag constants of `_TESSELLATION_SETTING_TYPE`,
* the two global maps `g_HullShaders` / `g_DomainShaders` (a `std::map<DWORD, T*>`,
  embedded as a key-ordered association list),
* `Cache` and `AddShadersToCache`,
* the GUI state touched by `OnGUIEvent` and `SetShaderFromUI`,
* `InitApp` and the control flow of `OnD3D11FrameRender` around the shader-stage bindings.
* the shader-map teardown of `OnD3D11DestroyDevice` and the shader-generation step of
  `OnD3D11CreateDevice`.

The theorems follow the definitions: registration and enumeration, key derivation and the
reachable GUI states, the render path, teardown and device creation, the macros derived
from the flags, and the sliders.

Flag words (`DWORD`) are natural numbers; only `|` and `&` are applied to them, so no
wrap-around can occur.  Other unsigned arithmetic is taken modulo `2^32` where the source
computes it.  Floats are exact rationals.  Pointers are natural numbers, `0` being `NULL`.
-/

namespace SilhouetteTessellation11

/-! Constants -/

/-- Source: `TESSELLATION_COMBO_NO_TESSELLATION = 0`. -/
abbrev TESSELLATION_COMBO_NO_TESSELLATION : Nat := 0
/-- Source: `TESSELLATION_COMBO_PN_TESSELLATION = 1`. -/
abbrev TESSELLATION_COMBO_PN_TESSELLATION : Nat := 1
/-- Source: `TESSELLATION_COMBO_PHONG_TESSELLATION = 2`. -/
abbrev TESSELLATION_COMBO_PHONG_TESSELLATION : Nat := 2

/-- Source: `SS_ADAPT = 1`: tessellation factors from an ideal primitive size. -/
abbrev SS_ADAPT : Nat := 1
/-- Source: `DIST_ADAPT = 2`: tessellation factors from distance. -/
abbrev DIST_ADAPT : Nat := 2
/-- Source: `RES_ADAPT = 4`: tessellation factors from screen resolution. -/
abbrev RES_ADAPT : Nat := 4
/-- Source: `ORIENT_ADAPT = 8`: tessellation factors from orientation. -/
abbrev ORIENT_ADAPT : Nat := 8
/-- Source: `BF_CULL = 32`: back face culling. -/
abbrev BF_CULL : Nat := 32
/-- Source: `FRUST_CULL = 64`: view frustum culling. -/
abbrev FRUST_CULL : Nat := 64
/-- Source: `PHONG = 128`: Phong tessellation. -/
abbrev PHONG : Nat := 128
/-- Source: `PNTRI = 256`: PN triangles. -/
abbrev PNTRI : Nat := 256

/-- The anonymous enum of UI control IDs. -/
inductive Ctl where
  | IDC_TOGGLEFULLSCREEN
  | IDC_TOGGLEREF
  | IDC_CHANGEDEVICE
  | IDC_STATIC_MESH
  | IDC_COMBOBOX_MESH
  | IDC_CHECKBOX_WIREFRAME
  | IDC_CHECKBOX_TEXTURED
  | IDC_COMBO_TESSELLATION
  | IDC_CHECKBOX_DISTANCE_ADAPTIVE
  | IDC_CHECKBOX_ORIENTATION_ADAPTIVE
  | IDC_STATIC_TESS_FACTOR_TITLE
  | IDC_STATIC_TESS_FACTOR
  | IDC_SLIDER_TESS_FACTOR
  | IDC_CHECKBOX_BACK_FACE_CULL
  | IDC_CHECKBOX_VIEW_FRUSTUM_CULL
  | IDC_CHECKBOX_SCREEN_SPACE_ADAPTIVE
  | IDC_STATIC_BACK_FACE_CULL_EPSILON
  | IDC_SLIDER_BACK_FACE_CULL_EPSILON
  | IDC_STATIC_SILHOUTTE_EPSILON
  | IDC_SLIDER_SILHOUTTE_EPSILON
  | IDC_STATIC_CULLING_TECHNIQUES
  | IDC_STATIC_ADAPTIVE_TECHNIQUES
  | IDC_STATIC_RANGE_SCALE
  | IDC_SLIDER_RANGE_SCALE
  | IDC_STATIC_EDGE_SIZE
  | IDC_SLIDER_EDGE_SIZE
  | IDC_CHECKBOX_SCREEN_RESOLUTION_ADAPTIVE
  | IDC_STATIC_SCREEN_RESOLUTION_SCALE
  | IDC_SLIDER_SCREEN_RESOLUTION_SCALE
  | IDC_STATIC_RENDER_SETTINGS
  | IDC_STATIC_VIEW_FRUSTUM_CULL_EPSILON
  | IDC_SLIDER_VIEW_FRUSTUM_CULL_EPSILON
  deriving DecidableEq, Repr

open Ctl

/-! The shader maps -/

/-- A COM interface pointer; `0` is `NULL`. -/
abbrev Handle := Nat

/-- The null pointer. -/
abbrev NULL : Handle := 0

/-- A `std::map<DWORD, T*>`: the entries in increasing key order. -/
abbrev StdMap := List (Nat × Handle)

namespace StdMap

/-- The keys of the map in iteration order. -/
def keys (m : StdMap) : List Nat := m.map Prod.fst

/-- The expression `m.find(k)`: the mapped pointer, or `none` for `end()`. -/
def find : StdMap → Nat → Option Handle
  | [], _ => none
  | (k', v) :: rest, k => if k' = k then some v else find rest k

/-- The expression `m[k] = v`: assigns to the entry of `k`, creating it at its place in key order when it
is absent. -/
def assign : StdMap → Nat → Handle → StdMap
  | [], k, v => [(k, v)]
  | (k', v') :: rest, k, v =>
    if k < k' then (k, v) :: (k', v') :: rest
    else if k = k' then (k, v) :: rest
    else (k', v') :: assign rest k v

/-- The expression `m[k]` used as a value: `operator[]` value-initialises (to `NULL`) an entry for `k`
when none exists, and yields the mapped pointer.  Returns the map afterwards and the value. -/
def subscript (m : StdMap) (k : Nat) : StdMap × Handle :=
  match m.find k with
  | some v => (m, v)
  | none => (m.assign k NULL, NULL)

end StdMap

/-! The shader cache requests -/

/-- Source: `AMD::ShaderCache::SHADER_TYPE`, the members used here. -/
inductive ShaderType where
  | SHADER_TYPE_VERTEX
  | SHADER_TYPE_HULL
  | SHADER_TYPE_DOMAIN
  | SHADER_TYPE_PIXEL
  deriving DecidableEq, Repr

/-- The `ID3D11DeviceChild**` handed to `AddShader`: where the compiled shader is stored. -/
inductive Slot where
  | g_pSceneVS
  | g_pSceneWithTessellationVS
  | hull (key : Nat)
  | domain (key : Nat)
  | g_pScenePS
  | g_pTexturedScenePS
  deriving DecidableEq, Repr

/-- Source: `AMD::ShaderCache::Macro`: a name and a value. -/
structure Macro where
  m_wsName : String
  m_iValue : Int
  deriving DecidableEq, Repr

/-- The arguments of one `g_ShaderCache.AddShader` call. -/
structure ShaderRequest where
  ppShader : Slot
  shaderType : ShaderType
  target : String
  entryPoint : String
  sourceFile : String
  uNumMacros : Nat
  pMacros : List Macro
  deriving DecidableEq, Repr

/-! Program state -/

/-- The part of `g_HUD.m_GUI` that the embedded functions read and write. -/
structure GUI where
  /-- Source: `GetComboBox( IDC_COMBO_TESSELLATION )->GetSelectedIndex()`. -/
  comboTess : Nat
  /-- Source: `GetComboBox( IDC_COMBOBOX_MESH )->GetSelectedIndex()`. -/
  comboMesh : Nat
  /-- Source: `GetCheckBox( id )->GetChecked()`. -/
  checked : Ctl → Bool
  /-- Source: `GetControl( id )->GetEnabled()`. -/
  enabled : Ctl → Bool
  /-- Source: `GetSlider( id )->GetValue()`. -/
  sliderValue : Ctl → Int

/-- The call `SetChecked( b )` on the check box `c`. -/
def GUI.SetChecked (g : GUI) (c : Ctl) (b : Bool) : GUI :=
  { g with checked := fun x => if x = c then b else g.checked x }

/-- The call `SetEnabled( b )` on the control `c`. -/
def GUI.SetEnabled (g : GUI) (c : Ctl) (b : Bool) : GUI :=
  { g with enabled := fun x => if x = c then b else g.enabled x }

/-- The globals of the translation unit that the embedded functions use.  Floats are exact
rationals. -/
structure App where
  gui : GUI
  HullShaderHash : Nat
  g_HullShaders : StdMap
  g_DomainShaders : StdMap
  /-- The requests `g_ShaderCache` has received through `AddShader`, oldest first. -/
  shaderCache : List ShaderRequest
  /-- Ghost field: the arguments of the calls of `Cache`, oldest first. -/
  cacheCalls : List Nat
  /-- Source: `g_SettingsDlg.IsActive()`. -/
  settingsDlgActive : Bool
  g_bRenderHUD : Bool
  g_eMeshType : Nat
  g_bUserMesh : Bool
  g_pDiffuseTextureSRV : Handle
  /-- For the mesh `m`: `g_SceneMesh[m].GetMaterial(0)->pDiffuseRV11` is neither `NULL` nor an
  error resource. -/
  meshDiffuseOk : Nat → Bool
  /-- Source: `g_SceneMesh[m].GetNumMeshes()`. -/
  numMeshes : Nat → Nat
  g_uTessFactor : Nat
  g_fBackFaceCullEpsilon : ℚ
  g_fSilhoutteEpsilon : ℚ
  g_fRangeScale : ℚ
  g_uEdgeSize : Nat
  g_fResolutionScale : ℚ
  g_fViewFrustumCullEpsilon : ℚ

/-- Source: `g_ShaderCache.AddShader( ... )`. -/
def App.AddShader (s : App) (r : ShaderRequest) : App :=
  { s with shaderCache := s.shaderCache ++ [r] }

/-! `Cache` -/

/-- The statement `if (flags & bit) wcscpy_s(ShaderMacros[flagCount++].m_wsName, name);`
on the pair (`ShaderMacros`, `flagCount`). -/
def addMacro (flags bit : Nat) (name : String) (st : List Macro × Nat) : List Macro × Nat :=
  if flags &&& bit ≠ 0 then
    (st.1.modify (fun mc => { mc with m_wsName := name }) st.2, st.2 + 1)
  else st

/-- The macro array and `flagCount` that `Cache` builds from `flags`. -/
def shaderMacros (flags : Nat) : List Macro × Nat :=
  let st : List Macro × Nat := (List.replicate 9 { m_wsName := "", m_iValue := 1 }, 0)
  let st := addMacro flags SS_ADAPT "SS_ADAPT" st
  let st := addMacro flags DIST_ADAPT "DIST_ADAPT" st
  let st := addMacro flags RES_ADAPT "RES_ADAPT" st
  let st := addMacro flags ORIENT_ADAPT "ORIENT_ADAPT" st
  let st := addMacro flags BF_CULL "BF_CULL" st
  let st := addMacro flags FRUST_CULL "FRUST_CULL" st
  let st := addMacro flags PHONG "PHONG" st
  let st := addMacro flags PNTRI "PNTRI" st
  st

/-- Source: `void Cache(DWORD flags)`. -/
def Cache (flags : Nat) (s : App) : App :=
  let s := { s with cacheCalls := s.cacheCalls ++ [flags] }
  let mac := shaderMacros flags
  let s := { s with g_HullShaders := s.g_HullShaders.assign flags NULL }
  let s := { s with g_DomainShaders := s.g_DomainShaders.assign flags NULL }
  let s := s.AddShader
    { ppShader := Slot.hull flags, shaderType := ShaderType.SHADER_TYPE_HULL,
      target := "hs_5_0", entryPoint := "HS_PNTriangles",
      sourceFile := "SilhouetteTessellation11.hlsl", uNumMacros := mac.2, pMacros := mac.1 }
  let s := s.AddShader
    { ppShader := Slot.domain flags, shaderType := ShaderType.SHADER_TYPE_DOMAIN,
      target := "ds_5_0", entryPoint := "DS_PNTriangles",
      sourceFile := "SilhouetteTessellation11.hlsl", uNumMacros := mac.2, pMacros := mac.1 }
  s

/-! `AddShadersToCache` -/

/-- Source: `DWORD culling[] = {0, BF_CULL, FRUST_CULL, FRUST_CULL|BF_CULL };`. -/
def culling : List Nat := [0, BF_CULL, FRUST_CULL, FRUST_CULL ||| BF_CULL]
/-- Source: `DWORD tessellation[] = {PNTRI, PHONG};`. -/
def tessellation : List Nat := [PNTRI, PHONG]
/-- Source: `DWORD orientation[] = {0, ORIENT_ADAPT};`. -/
def orientation : List Nat := [0, ORIENT_ADAPT]

/-- The body of the innermost loop of `AddShadersToCache` for the indices `o`, `t`, `c`. -/
def cacheLoopBody (o t c : Nat) (s : App) : App :=
  let common := tessellation.getD t 0 ||| culling.getD c 0 ||| orientation.getD o 0
  let s := Cache common s
  let s := Cache (common ||| SS_ADAPT) s
  let s := Cache (common ||| DIST_ADAPT) s
  let s := Cache (common ||| DIST_ADAPT ||| RES_ADAPT) s
  let s := Cache (common ||| RES_ADAPT) s
  s

/-- Source: `HRESULT AddShadersToCache()`. -/
def AddShadersToCache (s : App) : App :=
  let s := s.AddShader
    { ppShader := Slot.g_pSceneVS, shaderType := ShaderType.SHADER_TYPE_VERTEX,
      target := "vs_4_0", entryPoint := "VS_RenderScene",
      sourceFile := "SilhouetteTessellation11.hlsl", uNumMacros := 0, pMacros := [] }
  let s := s.AddShader
    { ppShader := Slot.g_pSceneWithTessellationVS, shaderType := ShaderType.SHADER_TYPE_VERTEX,
      target := "vs_4_0", entryPoint := "VS_RenderSceneWithTessellation",
      sourceFile := "SilhouetteTessellation11.hlsl", uNumMacros := 0, pMacros := [] }
  let s := (List.range 2).foldl (fun s o =>
    (List.range 2).foldl (fun s t =>
      (List.range 4).foldl (fun s c => cacheLoopBody o t c s) s) s) s
  let s := s.AddShader
    { ppShader := Slot.g_pScenePS, shaderType := ShaderType.SHADER_TYPE_PIXEL,
      target := "ps_4_0", entryPoint := "PS_RenderScene",
      sourceFile := "SilhouetteTessellation11.hlsl", uNumMacros := 0, pMacros := [] }
  let s := s.AddShader
    { ppShader := Slot.g_pTexturedScenePS, shaderType := ShaderType.SHADER_TYPE_PIXEL,
      target := "ps_4_0", entryPoint := "PS_RenderSceneTextured",
      sourceFile := "SilhouetteTessellation11.hlsl", uNumMacros := 0, pMacros := [] }
  s

/-! `SetShaderFromUI` -/

/-- The statement `HullShaderHash |= bit;`. -/
def App.orHash (s : App) (bit : Nat) : App :=
  { s with HullShaderHash := s.HullShaderHash ||| bit }

/-- The statement `g_HUD.m_GUI.GetControl( c )->SetEnabled( b );`. -/
def App.SetEnabled (s : App) (c : Ctl) (b : Bool) : App :=
  { s with gui := s.gui.SetEnabled c b }

/-- The statement `g_HUD.m_GUI.GetCheckBox( c )->SetChecked( b );`.  The dialog does not
forward programmatic changes to `OnGUIEvent`, so this only stores the flag. -/
def App.SetChecked (s : App) (c : Ctl) (b : Bool) : App :=
  { s with gui := s.gui.SetChecked c b }

/-- One block of `SetShaderFromUI`:
`bEnable = GetCheckBox( box )->GetChecked(); GetSlider( slider )->SetEnabled( bEnable );
if( bEnable ) HullShaderHash |= bit;`. -/
def checkboxBlock (box slider : Ctl) (bit : Nat) (s : App) : App :=
  let bEnable := s.gui.checked box
  let s := s.SetEnabled slider bEnable
  if bEnable then s.orHash bit else s

/-- Source: `void SetShaderFromUI()`. -/
def SetShaderFromUI (s : App) : App :=
  let s := { s with HullShaderHash := 0 }
  let s :=
    if s.gui.comboTess = TESSELLATION_COMBO_NO_TESSELLATION then
      let s := { s with HullShaderHash := 0 }
      let s := s.SetEnabled IDC_SLIDER_BACK_FACE_CULL_EPSILON false
      let s := s.SetEnabled IDC_SLIDER_VIEW_FRUSTUM_CULL_EPSILON false
      let s := s.SetEnabled IDC_SLIDER_EDGE_SIZE false
      let s := s.SetEnabled IDC_SLIDER_RANGE_SCALE false
      let s := s.SetEnabled IDC_SLIDER_SCREEN_RESOLUTION_SCALE false
      let s := s.SetEnabled IDC_SLIDER_SILHOUTTE_EPSILON false
      s
    else if s.gui.comboTess = TESSELLATION_COMBO_PN_TESSELLATION then
      s.orHash PNTRI
    else if s.gui.comboTess = TESSELLATION_COMBO_PHONG_TESSELLATION then
      s.orHash PHONG
    else s
  let s := checkboxBlock IDC_CHECKBOX_SCREEN_SPACE_ADAPTIVE IDC_SLIDER_EDGE_SIZE SS_ADAPT s
  let s := checkboxBlock IDC_CHECKBOX_DISTANCE_ADAPTIVE IDC_SLIDER_RANGE_SCALE DIST_ADAPT s
  let s := checkboxBlock IDC_CHECKBOX_SCREEN_RESOLUTION_ADAPTIVE
    IDC_SLIDER_SCREEN_RESOLUTION_SCALE RES_ADAPT s
  let s := checkboxBlock IDC_CHECKBOX_ORIENTATION_ADAPTIVE IDC_SLIDER_SILHOUTTE_EPSILON
    ORIENT_ADAPT s
  let s := checkboxBlock IDC_CHECKBOX_BACK_FACE_CULL IDC_SLIDER_BACK_FACE_CULL_EPSILON BF_CULL s
  let s := checkboxBlock IDC_CHECKBOX_VIEW_FRUSTUM_CULL IDC_SLIDER_VIEW_FRUSTUM_CULL_EPSILON
    FRUST_CULL s
  s

/-! `OnGUIEvent` -/

/-- The controls that the `IDC_COMBO_TESSELLATION` case enables or disables, in the order of
the source. -/
def comboControls : List Ctl :=
  [IDC_CHECKBOX_DISTANCE_ADAPTIVE, IDC_CHECKBOX_ORIENTATION_ADAPTIVE,
   IDC_STATIC_TESS_FACTOR_TITLE, IDC_STATIC_TESS_FACTOR, IDC_SLIDER_TESS_FACTOR,
   IDC_CHECKBOX_BACK_FACE_CULL, IDC_CHECKBOX_VIEW_FRUSTUM_CULL,
   IDC_CHECKBOX_SCREEN_SPACE_ADAPTIVE, IDC_STATIC_BACK_FACE_CULL_EPSILON,
   IDC_SLIDER_BACK_FACE_CULL_EPSILON, IDC_STATIC_SILHOUTTE_EPSILON,
   IDC_SLIDER_SILHOUTTE_EPSILON, IDC_STATIC_CULLING_TECHNIQUES,
   IDC_STATIC_ADAPTIVE_TECHNIQUES, IDC_STATIC_RANGE_SCALE, IDC_SLIDER_RANGE_SCALE,
   IDC_STATIC_EDGE_SIZE, IDC_SLIDER_EDGE_SIZE, IDC_CHECKBOX_SCREEN_RESOLUTION_ADAPTIVE,
   IDC_STATIC_SCREEN_RESOLUTION_SCALE, IDC_SLIDER_SCREEN_RESOLUTION_SCALE]

/-- The call `SetEnabled( b )` on each control of a list, in order. -/
def App.SetEnabledAll (s : App) (cs : List Ctl) (b : Bool) : App :=
  cs.foldl (fun s c => s.SetEnabled c b) s

/-- Source: `MESH_TYPE_USER = 4`. -/
abbrev MESH_TYPE_USER : Nat := 4

/-- The conversion `(unsigned int)v` of an `int`. -/
def toUnsigned (v : Int) : Nat := (v % 4294967296).toNat

/-- Source: `void CALLBACK OnGUIEvent( UINT nEvent, int nControlID, CDXUTControl* pControl, ... )`.
`pControl` is the control with the ID `nControlID`, so its selected index or value is read
from the dialog.  The texts of the static controls are not embedded; the calls into DXUT
and the magnify tool (full screen, REF device, `g_MagnifyTool.OnGUIEvent`) touch none of
the fields of `App`. -/
def OnGUIEvent (nControlID : Ctl) (s : App) : App :=
  match nControlID with
  | IDC_TOGGLEFULLSCREEN => s
  | IDC_TOGGLEREF => s
  | IDC_CHANGEDEVICE => { s with settingsDlgActive := !s.settingsDlgActive }
  | IDC_SLIDER_TESS_FACTOR =>
    { s with g_uTessFactor :=
        ((toUnsigned (s.gui.sliderValue IDC_SLIDER_TESS_FACTOR) + 4294967296 - 1) * 2 + 1)
          % 4294967296 }
  | IDC_COMBOBOX_MESH =>
    let s := { s with g_eMeshType := s.gui.comboMesh }
    if s.g_bUserMesh && s.g_eMeshType == MESH_TYPE_USER then
      if !s.meshDiffuseOk s.g_eMeshType && s.g_pDiffuseTextureSRV == NULL then
        s.SetEnabled IDC_CHECKBOX_TEXTURED false
      else
        s.SetEnabled IDC_CHECKBOX_TEXTURED true
    else if !s.meshDiffuseOk s.g_eMeshType then
      s.SetEnabled IDC_CHECKBOX_TEXTURED false
    else
      s.SetEnabled IDC_CHECKBOX_TEXTURED true
  | IDC_COMBO_TESSELLATION =>
    let bEnable := decide (s.gui.comboTess > 0)
    let s := s.SetEnabledAll comboControls bEnable
    SetShaderFromUI s
  | IDC_CHECKBOX_BACK_FACE_CULL
  | IDC_CHECKBOX_VIEW_FRUSTUM_CULL
  | IDC_CHECKBOX_ORIENTATION_ADAPTIVE =>
    SetShaderFromUI s
  | IDC_CHECKBOX_SCREEN_SPACE_ADAPTIVE =>
    let s :=
      if s.gui.checked IDC_CHECKBOX_SCREEN_SPACE_ADAPTIVE then
        let s := s.SetChecked IDC_CHECKBOX_DISTANCE_ADAPTIVE false
        let s := s.SetChecked IDC_CHECKBOX_SCREEN_RESOLUTION_ADAPTIVE false
        s.SetEnabledAll
          [IDC_CHECKBOX_DISTANCE_ADAPTIVE, IDC_CHECKBOX_SCREEN_RESOLUTION_ADAPTIVE,
           IDC_SLIDER_RANGE_SCALE, IDC_SLIDER_SCREEN_RESOLUTION_SCALE,
           IDC_STATIC_RANGE_SCALE, IDC_STATIC_SCREEN_RESOLUTION_SCALE] false
      else
        s.SetEnabledAll
          [IDC_CHECKBOX_DISTANCE_ADAPTIVE, IDC_CHECKBOX_SCREEN_RESOLUTION_ADAPTIVE,
           IDC_SLIDER_RANGE_SCALE, IDC_SLIDER_SCREEN_RESOLUTION_SCALE,
           IDC_STATIC_RANGE_SCALE, IDC_STATIC_SCREEN_RESOLUTION_SCALE] true
    SetShaderFromUI s
  | IDC_CHECKBOX_SCREEN_RESOLUTION_ADAPTIVE
  | IDC_CHECKBOX_DISTANCE_ADAPTIVE =>
    let s :=
      if s.gui.checked IDC_CHECKBOX_DISTANCE_ADAPTIVE ||
          s.gui.checked IDC_CHECKBOX_SCREEN_RESOLUTION_ADAPTIVE then
        let s := s.SetChecked IDC_CHECKBOX_SCREEN_SPACE_ADAPTIVE false
        s.SetEnabledAll
          [IDC_CHECKBOX_SCREEN_SPACE_ADAPTIVE, IDC_SLIDER_EDGE_SIZE, IDC_STATIC_EDGE_SIZE] false
      else
        s.SetEnabledAll
          [IDC_CHECKBOX_SCREEN_SPACE_ADAPTIVE, IDC_SLIDER_EDGE_SIZE, IDC_STATIC_EDGE_SIZE] true
    SetShaderFromUI s
  | IDC_SLIDER_BACK_FACE_CULL_EPSILON =>
    { s with g_fBackFaceCullEpsilon :=
        (s.gui.sliderValue IDC_SLIDER_BACK_FACE_CULL_EPSILON : ℚ) / 100 }
  | IDC_SLIDER_SILHOUTTE_EPSILON =>
    { s with g_fSilhoutteEpsilon := (s.gui.sliderValue IDC_SLIDER_SILHOUTTE_EPSILON : ℚ) / 100 }
  | IDC_SLIDER_RANGE_SCALE =>
    { s with g_fRangeScale := (s.gui.sliderValue IDC_SLIDER_RANGE_SCALE : ℚ) / 50 }
  | IDC_SLIDER_EDGE_SIZE =>
    { s with g_uEdgeSize := toUnsigned (s.gui.sliderValue IDC_SLIDER_EDGE_SIZE) }
  | IDC_SLIDER_SCREEN_RESOLUTION_SCALE =>
    { s with g_fResolutionScale :=
        (s.gui.sliderValue IDC_SLIDER_SCREEN_RESOLUTION_SCALE : ℚ) / 50 }
  | IDC_SLIDER_VIEW_FRUSTUM_CULL_EPSILON =>
    { s with g_fViewFrustumCullEpsilon :=
        (s.gui.sliderValue IDC_SLIDER_VIEW_FRUSTUM_CULL_EPSILON : ℚ) / 50 }
  | _ => s

/-! `InitApp` -/

/-- The values of the globals before `wWinMain` runs, from their initialisers:
`HullShaderHash = 0`, both maps empty, `g_uTessFactor = 5`, ...; the dialog has no control
yet and no mesh is loaded. -/
def staticInit : App :=
  { gui := { comboTess := 0, comboMesh := 0, checked := fun _ => false,
             enabled := fun _ => false, sliderValue := fun _ => 0 },
    HullShaderHash := 0, g_HullShaders := [], g_DomainShaders := [],
    shaderCache := [], cacheCalls := [],
    settingsDlgActive := false, g_bRenderHUD := true, g_eMeshType := 0,
    g_bUserMesh := false, g_pDiffuseTextureSRV := NULL,
    meshDiffuseOk := fun _ => false, numMeshes := fun _ => 0,
    g_uTessFactor := 5, g_fBackFaceCullEpsilon := 1 / 2, g_fSilhoutteEpsilon := 1 / 4,
    g_fRangeScale := 1, g_uEdgeSize := 16, g_fResolutionScale := 1,
    g_fViewFrustumCullEpsilon := 1 / 2 }

/-- The conversion `(unsigned int)x` of a non-negative float: truncation. -/
def truncToUnsigned (x : ℚ) : Int := Int.ofNat (x.num.toNat / x.den)

/-- The `value` arguments of the `AddSlider` calls of `InitApp`. -/
def initialSliderValue (s : App) : Ctl → Int
  | IDC_SLIDER_TESS_FACTOR => Int.ofNat ((1 + (s.g_uTessFactor + 4294967296 - 1) % 4294967296 / 2)
      % 4294967296)
  | IDC_SLIDER_BACK_FACE_CULL_EPSILON => truncToUnsigned (s.g_fBackFaceCullEpsilon * 100)
  | IDC_SLIDER_VIEW_FRUSTUM_CULL_EPSILON => truncToUnsigned (s.g_fViewFrustumCullEpsilon * 100)
  | IDC_SLIDER_EDGE_SIZE => Int.ofNat s.g_uEdgeSize
  | IDC_SLIDER_RANGE_SCALE => truncToUnsigned (s.g_fRangeScale * 50)
  | IDC_SLIDER_SCREEN_RESOLUTION_SCALE => truncToUnsigned (s.g_fResolutionScale * 50)
  | IDC_SLIDER_SILHOUTTE_EPSILON => truncToUnsigned (s.g_fSilhoutteEpsilon * 100)
  | _ => 0

/-- Source: `void InitApp()`: the controls are created enabled; `IDC_CHECKBOX_TEXTURED` is the only
check box created checked; the mesh combo box gets `SetSelectedByIndex( 0 )` and the
tessellation combo box `SetSelectedByIndex( 2 )`; the sliders get the values of
`initialSliderValue`; the last statement on the embedded state is `SetShaderFromUI()`. -/
def InitApp (s : App) : App :=
  let s := { s with gui :=
    { comboTess := 2,
      comboMesh := 0,
      checked := fun c => decide (c = IDC_CHECKBOX_TEXTURED),
      enabled := fun _ => true,
      sliderValue := initialSliderValue s } }
  SetShaderFromUI s

/-- The state `InitApp` builds. -/
def initState : App := InitApp staticInit

/-! User input and reachable GUI states -/

/-- The six check boxes that `SetShaderFromUI` reads. -/
def tessCheckboxes : List Ctl :=
  [IDC_CHECKBOX_SCREEN_SPACE_ADAPTIVE, IDC_CHECKBOX_DISTANCE_ADAPTIVE,
   IDC_CHECKBOX_SCREEN_RESOLUTION_ADAPTIVE, IDC_CHECKBOX_ORIENTATION_ADAPTIVE,
   IDC_CHECKBOX_BACK_FACE_CULL, IDC_CHECKBOX_VIEW_FRUSTUM_CULL]

/-- The user picks item `i` of the tessellation combo box; the dialog stores the selection
and then calls `OnGUIEvent` for `IDC_COMBO_TESSELLATION`. -/
def selectTessellation (i : Nat) (s : App) : App :=
  OnGUIEvent IDC_COMBO_TESSELLATION { s with gui := { s.gui with comboTess := i } }

/-- The user clicks the check box `c`; the dialog flips its checked flag and then calls
`OnGUIEvent` for `c`. -/
def clickCheckbox (c : Ctl) (s : App) : App :=
  OnGUIEvent c (s.SetChecked c (!s.gui.checked c))

/-- A user action on the tessellation controls. -/
inductive UIEvent where
  | select (i : Fin 3)
  | click (c : Ctl)
  deriving DecidableEq, Repr

/-- The state after one user action. -/
def uiStep (s : App) : UIEvent → App
  | UIEvent.select i => selectTessellation i.val s
  | UIEvent.click c => clickCheckbox c s

/-- The state after a sequence of user actions, first action first. -/
def runEvents (s : App) (es : List UIEvent) : App := es.foldl uiStep s

/-- GUI states reachable from the state `InitApp` builds: the user selects item 0, 1 or 2
of the tessellation combo box or flips one of the six check boxes, and `OnGUIEvent` runs. -/
inductive Reachable : App → Prop
  | init : Reachable initState
  | select (s : App) (i : Nat) (hi : i < 3) (hs : Reachable s) :
      Reachable (selectTessellation i s)
  | click (s : App) (c : Ctl) (hc : c ∈ tessCheckboxes) (hs : Reachable s) :
      Reachable (clickCheckbox c s)

/-- As `Reachable`, with the restriction the dialog imposes on mouse and keyboard input: only
an enabled check box can be flipped.  (The tessellation combo box is never disabled.) -/
inductive UserReachable : App → Prop
  | init : UserReachable initState
  | select (s : App) (i : Nat) (hi : i < 3) (hs : UserReachable s) :
      UserReachable (selectTessellation i s)
  | click (s : App) (c : Ctl) (hc : c ∈ tessCheckboxes) (he : s.gui.enabled c = true)
      (hs : UserReachable s) : UserReachable (clickCheckbox c s)

/-! `OnD3D11FrameRender` -/

/-- What `OnD3D11FrameRender` does that the selection logic is concerned with, in program
order: the shader-stage bindings, the accesses to the two shader maps, the draws and the
HUD or progress output. -/
inductive RenderCall where
  /-- Source: `g_SettingsDlg.OnRender( fElapsedTime )`. -/
  | SettingsDlgOnRender
  /-- Source: `VSSetShader( bTessellation ? g_pSceneWithTessellationVS : g_pSceneVS, ... )`. -/
  | VSSetShader (bTessellation : Bool)
  /-- Source: `HSSetConstantBuffers( g_iPNTRIANGLESCBBind, 1, &g_pcbPNTriangles )`. -/
  | HSSetConstantBuffers
  /-- The access `g_HullShaders[key]`. -/
  | HullShadersSubscript (key : Nat)
  /-- Source: `HSSetShader( pHS, NULL, 0 )`. -/
  | HSSetShader (pHS : Handle)
  /-- Source: `DSSetConstantBuffers( g_iPNTRIANGLESCBBind, 1, &g_pcbPNTriangles )`. -/
  | DSSetConstantBuffers
  /-- The access `g_DomainShaders[key]`. -/
  | DomainShadersSubscript (key : Nat)
  /-- Source: `DSSetShader( pDS, NULL, 0 )`. -/
  | DSSetShader (pDS : Handle)
  /-- Source: `GSSetShader( NULL, NULL, 0 )`. -/
  | GSSetShader
  /-- Source: `PSSetShader( pPS, NULL, 0 )` with `pPS` chosen by `bTextured`. -/
  | PSSetShader (bTextured : Bool)
  /-- Source: `RenderMesh( &g_SceneMesh[g_eMeshType], iMesh, PrimitiveTopology, uDiffuseSlot )`;
  the flag tells whether the topology is the 3-control-point patch list. -/
  | RenderMesh (iMesh : Nat) (patchList : Bool)
  /-- Source: `g_MagnifyTool.Render()`. -/
  | MagnifyToolRender
  /-- Source: `g_HUD.OnRender( fElapsedTime )`. -/
  | HUDOnRender
  /-- Source: `RenderText()`. -/
  | RenderText
  /-- Source: `g_ShaderCache.RenderProgress( ... )`. -/
  | RenderProgress
  deriving DecidableEq, Repr

/-- The block of `OnD3D11FrameRender` guarded by the first `g_ShaderCache.ShadersReady()`,
from the computation of `bTextured` and `bTessellation` to the mesh loop.  The update of
the constant buffer and the sampler, input-layout and rasterizer calls are not recorded. -/
def renderScene (s : App) : App × List RenderCall :=
  let bTextured := s.gui.checked IDC_CHECKBOX_TEXTURED && s.gui.enabled IDC_CHECKBOX_TEXTURED
  let bTessellation := decide (s.gui.comboTess ≠ TESSELLATION_COMBO_NO_TESSELLATION)
  let tr := [RenderCall.VSSetShader bTessellation]
  -- HS
  let pHS : Handle := NULL
  let (s, pHS, tr) :=
    if bTessellation then
      let r := s.g_HullShaders.subscript s.HullShaderHash
      ({ s with g_HullShaders := r.1 }, r.2,
        tr ++ [RenderCall.HSSetConstantBuffers, RenderCall.HullShadersSubscript s.HullShaderHash])
    else (s, pHS, tr)
  let tr := tr ++ [RenderCall.HSSetShader pHS]
  -- DS
  let pDS : Handle := NULL
  let (s, pDS, tr) :=
    if bTessellation then
      let r := s.g_DomainShaders.subscript s.HullShaderHash
      ({ s with g_DomainShaders := r.1 }, r.2,
        tr ++ [RenderCall.DSSetConstantBuffers,
               RenderCall.DomainShadersSubscript s.HullShaderHash])
    else (s, pDS, tr)
  let tr := tr ++ [RenderCall.DSSetShader pDS]
  -- GS, PS
  let tr := tr ++ [RenderCall.GSSetShader, RenderCall.PSSetShader bTextured]
  -- the meshes
  let tr := tr ++ (List.range (s.numMeshes s.g_eMeshType)).map
    (fun iMesh => RenderCall.RenderMesh iMesh bTessellation)
  (s, tr)

/-- Source: `void CALLBACK OnD3D11FrameRender( ... )`.  `ready1` and `ready2` are the results of the
two calls of `g_ShaderCache.ShadersReady()`, in program order. -/
def OnD3D11FrameRender (ready1 ready2 : Bool) (s : App) : App × List RenderCall :=
  if s.settingsDlgActive then
    (s, [RenderCall.SettingsDlgOnRender])
  else
    let (s, tr) := if ready1 then renderScene s else (s, [])
    let tr :=
      if ready2 then
        let tr := if s.g_bRenderHUD then
          tr ++ [RenderCall.MagnifyToolRender, RenderCall.HUDOnRender] else tr
        tr ++ [RenderCall.RenderText]
      else
        tr ++ [RenderCall.RenderProgress]
    (s, tr)

/-! Specification vocabulary -/

/-- The dialog of the state `InitApp` builds with the tessellation combo on item `i` and the
six technique check boxes set as given. -/
def toggleState (i : Nat) (ss dist res orient bf frust : Bool) : App :=
  { initState with gui := { initState.gui with
      comboTess := i
      checked := fun c =>
        match c with
        | IDC_CHECKBOX_SCREEN_SPACE_ADAPTIVE => ss
        | IDC_CHECKBOX_DISTANCE_ADAPTIVE => dist
        | IDC_CHECKBOX_SCREEN_RESOLUTION_ADAPTIVE => res
        | IDC_CHECKBOX_ORIENTATION_ADAPTIVE => orient
        | IDC_CHECKBOX_BACK_FACE_CULL => bf
        | IDC_CHECKBOX_VIEW_FRUSTUM_CULL => frust
        | c => initState.gui.checked c } }

/-- The keys `AddShadersToCache` passes to `Cache`, in call order (read off a run from the
initial values of the globals). -/
def registeredKeys : List Nat := (AddShadersToCache staticInit).cacheCalls

/-- The value `bit` when `b` holds, else no bit. -/
def bitIf (b : Bool) (bit : Nat) : Nat := if b then bit else 0

/-- The technique bit `SetShaderFromUI` sets for the combo index `i`. -/
def techniqueBit (i : Nat) : Nat :=
  if i = TESSELLATION_COMBO_PN_TESSELLATION then PNTRI
  else if i = TESSELLATION_COMBO_PHONG_TESSELLATION then PHONG
  else 0

/-- The bitwise OR of the technique bit of the combo index and of the flags of the checked
boxes, in the order `SetShaderFromUI` ORs them in. -/
def keyOfToggles (i : Nat) (ss dist res orient bf frust : Bool) : Nat :=
  techniqueBit i ||| bitIf ss SS_ADAPT ||| bitIf dist DIST_ADAPT ||| bitIf res RES_ADAPT |||
    bitIf orient ORIENT_ADAPT ||| bitIf bf BF_CULL ||| bitIf frust FRUST_CULL

/-- The key of the toggle state of a dialog. -/
def keyOfGUI (g : GUI) : Nat :=
  keyOfToggles g.comboTess (g.checked IDC_CHECKBOX_SCREEN_SPACE_ADAPTIVE)
    (g.checked IDC_CHECKBOX_DISTANCE_ADAPTIVE) (g.checked IDC_CHECKBOX_SCREEN_RESOLUTION_ADAPTIVE)
    (g.checked IDC_CHECKBOX_ORIENTATION_ADAPTIVE) (g.checked IDC_CHECKBOX_BACK_FACE_CULL)
    (g.checked IDC_CHECKBOX_VIEW_FRUSTUM_CULL)

/-- The screen-space check box is not checked together with the distance or the resolution
check box. -/
def Exclusive (g : GUI) : Prop :=
  (g.checked IDC_CHECKBOX_SCREEN_SPACE_ADAPTIVE &&
    (g.checked IDC_CHECKBOX_DISTANCE_ADAPTIVE ||
      g.checked IDC_CHECKBOX_SCREEN_RESOLUTION_ADAPTIVE)) = false

/-- The invariant of the reachable states: the combo index is one of the three items,
`HullShaderHash` is the key of the toggle state, and the adaptivity boxes are exclusive. -/
def GuiInv (s : App) : Prop :=
  s.gui.comboTess < 3 ∧ s.HullShaderHash = keyOfGUI s.gui ∧ Exclusive s.gui

/-- Whether the dialog lets the user perform the action in the state `s`: a click reaches a
check box only when it is enabled. -/
def allowed (s : App) : UIEvent → Bool
  | UIEvent.select _ => true
  | UIEvent.click c => decide (c ∈ tessCheckboxes) && s.gui.enabled c

/-- Whether every action of the list is allowed in the state in which it is performed. -/
def userPath (s : App) : List UIEvent → Bool
  | [] => true
  | e :: es => allowed s e && userPath (uiStep s e) es

/-- A sequence of user actions that leads from the state `InitApp` builds to the key `k`:
select the technique, then check the boxes whose flags are in `k`. -/
def pathTo (k : Nat) : List UIEvent :=
  [UIEvent.select (if k &&& PNTRI ≠ 0 then 1 else 2)] ++
  (if k &&& BF_CULL ≠ 0 then [UIEvent.click IDC_CHECKBOX_BACK_FACE_CULL] else []) ++
  (if k &&& FRUST_CULL ≠ 0 then [UIEvent.click IDC_CHECKBOX_VIEW_FRUSTUM_CULL] else []) ++
  (if k &&& ORIENT_ADAPT ≠ 0 then [UIEvent.click IDC_CHECKBOX_ORIENTATION_ADAPTIVE] else []) ++
  (if k &&& SS_ADAPT ≠ 0 then [UIEvent.click IDC_CHECKBOX_SCREEN_SPACE_ADAPTIVE] else []) ++
  (if k &&& DIST_ADAPT ≠ 0 then [UIEvent.click IDC_CHECKBOX_DISTANCE_ADAPTIVE] else []) ++
  (if k &&& RES_ADAPT ≠ 0 then [UIEvent.click IDC_CHECKBOX_SCREEN_RESOLUTION_ADAPTIVE] else [])

/-! `OnD3D11DestroyDevice` -/

/-- Modelled from the spec: the macro `SAFE_RELEASE` comes from `DXUT.h`, which is not among
the sources.  Teardown "releases every CompiledVariant" exactly once and a second teardown
"is a no-op", so the macro is `if (p) { p->Release(); p = NULL; }`.  Returns the pointer
afterwards and the pointers `Release` was called on. -/
def SAFE_RELEASE (p : Handle) : Handle × List Handle :=
  if p ≠ NULL then (NULL, [p]) else (p, [])

/-- The loop `for(auto it=m.begin(); it!=m.end(); it++) SAFE_RELEASE( it->second );` over a
shader map: the map afterwards and, in iteration order, the entries (key and pointer)
`Release` was called on. -/
def releaseEntries : StdMap → StdMap × List (Nat × Handle)
  | [] => ([], [])
  | (k, p) :: rest =>
    let r := SAFE_RELEASE p
    let rs := releaseEntries rest
    ((k, r.1) :: rs.1, r.2.map (fun h => (k, h)) ++ rs.2)

/-- The calls of `Release` that `OnD3D11DestroyDevice` makes on pointers held in `App`. -/
inductive ReleaseCall where
  /-- The call of `Release` on the pointer `g_HullShaders` maps `key` to. -/
  | HullShader (key : Nat) (p : Handle)
  /-- The call of `Release` on the pointer `g_DomainShaders` maps `key` to. -/
  | DomainShader (key : Nat) (p : Handle)
  /-- The call of `Release` on `g_pDiffuseTextureSRV`. -/
  | DiffuseTextureSRV (p : Handle)
  deriving DecidableEq, Repr

/-- Source: `void CALLBACK OnD3D11DestroyDevice( void* pUserContext )`, on the fields of
`App`: the two loops over the shader maps and `SAFE_RELEASE( g_pDiffuseTextureSRV )`.  The
function erases nothing from the maps.  The other released pointers, the meshes and the
`OnDestroyDevice` calls into DXUT and the AMD helpers are not embedded. -/
def OnD3D11DestroyDevice (s : App) : App × List ReleaseCall :=
  let h := releaseEntries s.g_HullShaders
  let s := { s with g_HullShaders := h.1 }
  let tr := h.2.map (fun e => ReleaseCall.HullShader e.1 e.2)
  let d := releaseEntries s.g_DomainShaders
  let s := { s with g_DomainShaders := d.1 }
  let tr := tr ++ d.2.map (fun e => ReleaseCall.DomainShader e.1 e.2)
  let t := SAFE_RELEASE s.g_pDiffuseTextureSRV
  let s := { s with g_pDiffuseTextureSRV := t.1 }
  let tr := tr ++ t.2.map ReleaseCall.DiffuseTextureSRV
  (s, tr)

/-! `OnD3D11CreateDevice` -/

/-- What one run of `OnD3D11CreateDevice` meets outside the program. -/
structure CreateDeviceEnv where
  /-- One of the `V_RETURN` statements before the user mesh is looked for returns early
  (dialog resources, constant buffer, the four standard meshes). -/
  failedBeforeUserMesh : Bool
  /-- Source: `FileExists( str )` for `user\\user.sdkmesh`. -/
  userMeshExists : Bool
  /-- Source: `FileExists( L"..\\media\\user\\diffuse.dds" )`. -/
  userDiffuseExists : Bool
  /-- The view `CreateDDSTextureFromFile` stores in `g_pDiffuseTextureSRV`. -/
  userDiffuseSRV : Handle
  /-- One of the `V_RETURN` statements after that returns early (sampler and rasterizer
  states). -/
  failedAfterUserMesh : Bool

/-- The two calls of the shader-generation step of `OnD3D11CreateDevice`. -/
inductive ShaderSetupCall where
  /-- Source: `AddShadersToCache()`. -/
  | AddShadersToCache
  /-- Source: `g_ShaderCache.GenerateShaders( AMD::ShaderCache::CREATE_TYPE_COMPILE_CHANGES )`. -/
  | GenerateShaders
  deriving DecidableEq, Repr

/-- The globals together with the function-local `static bool bFirstPass` of
`OnD3D11CreateDevice`. -/
structure Device where
  app : App
  bFirstPass : Bool
  /-- Ghost field: the calls of the shader-generation step made so far, oldest first. -/
  setupCalls : List ShaderSetupCall

/-- Source: `HRESULT CALLBACK OnD3D11CreateDevice( ... )`, on the fields of `Device`; the
second component tells whether `S_OK` is returned.  A run reaches the shader-generation step
when no `V_RETURN` returns early.  The camera, light, mesh and state-object creation and the
item added to the mesh combo box are not embedded. -/
def OnD3D11CreateDevice (env : CreateDeviceEnv) (d : Device) : Device × Bool :=
  if env.failedBeforeUserMesh then (d, false)
  else
    let app := { d.app with g_bUserMesh := false, g_pDiffuseTextureSRV := NULL }
    let app := if env.userMeshExists then { app with g_bUserMesh := true } else app
    let app :=
      if env.userDiffuseExists then { app with g_pDiffuseTextureSRV := env.userDiffuseSRV }
      else app
    let d := { d with app := app }
    if env.failedAfterUserMesh then (d, false)
    else
      let d :=
        if d.bFirstPass then
          let d := { d with app := AddShadersToCache d.app,
                            setupCalls := d.setupCalls ++ [ShaderSetupCall.AddShadersToCache] }
          let d := { d with setupCalls := d.setupCalls ++ [ShaderSetupCall.GenerateShaders] }
          { d with bFirstPass := false }
        else d
      (d, true)

/-- The program state when `DXUTCreateDevice` is first called in `wWinMain`: `InitApp` has
run, `bFirstPass` has its initialiser `true`. -/
def startDevice : Device :=
  { app := initState, bFirstPass := true, setupCalls := [] }

/-- A run of `OnD3D11CreateDevice` reaches the shader-generation step. -/
def CreateDeviceEnv.reachesShaderStep (env : CreateDeviceEnv) : Bool :=
  !env.failedBeforeUserMesh && !env.failedAfterUserMesh

/-- Successive runs of `OnD3D11CreateDevice`: each run comes with the change `f` that
whatever ran since the previous run (GUI events, frames, `OnD3D11DestroyDevice`) made to
the globals; `bFirstPass` is out of their reach. -/
def createDeviceRuns (d : Device) : List ((App → App) × CreateDeviceEnv) → Device
  | [] => d
  | (f, env) :: rest =>
    createDeviceRuns (OnD3D11CreateDevice env { d with app := f d.app }).1 rest

/-- An environment in which every step of `OnD3D11CreateDevice` succeeds and no user mesh or
texture is present. -/
def plainEnv : CreateDeviceEnv :=
  { failedBeforeUserMesh := false, userMeshExists := false, userDiffuseExists := false,
    userDiffuseSRV := NULL, failedAfterUserMesh := false }

/-- The requests `AddShadersToCache` hands to `g_ShaderCache.AddShader`, in call order (read
off a run from the initial values of the globals). -/
def issuedRequests : List ShaderRequest := (AddShadersToCache staticInit).shaderCache

/-- The number of requests of a list with the shader type `t`. -/
def countType (t : ShaderType) (rs : List ShaderRequest) : Nat :=
  rs.countP (fun r => decide (r.shaderType = t))

/-- The number of requests of a list whose output slot is `p`. -/
def countSlot (p : Slot) (rs : List ShaderRequest) : Nat :=
  rs.countP (fun r => decide (r.ppShader = p))

/-- The keys of a shader map are strictly increasing, as `std::map` keeps them. -/
def StdMap.Ordered (m : StdMap) : Prop := m.keys.Sorted (fun a b => a < b)

/-- The state `InitApp` builds with given contents of the two shader maps. -/
def withMaps (hull domain : StdMap) : App :=
  { initState with g_HullShaders := hull, g_DomainShaders := domain }

/-- The entries of a shader map whose pointer is not `NULL`, in iteration order. -/
def StdMap.nonNull (m : StdMap) : List (Nat × Handle) :=
  m.filter (fun e => decide (e.2 ≠ NULL))

/-- The map with every pointer set to `NULL`. -/
def StdMap.allNull (m : StdMap) : StdMap := m.map (fun e => (e.1, NULL))

/-- The entries of `g_HullShaders` that a list of calls releases, in call order. -/
def hullReleases (tr : List ReleaseCall) : List (Nat × Handle) :=
  tr.filterMap (fun c =>
    match c with
    | ReleaseCall.HullShader k p => some (k, p)
    | _ => none)

/-- The entries of `g_DomainShaders` that a list of calls releases, in call order. -/
def domainReleases (tr : List ReleaseCall) : List (Nat × Handle) :=
  tr.filterMap (fun c =>
    match c with
    | ReleaseCall.DomainShader k p => some (k, p)
    | _ => none)

/-- The user drags the slider `c` to the value `v`; the dialog stores the value and then
calls `OnGUIEvent` for `c`. -/
def moveSlider (c : Ctl) (v : Int) (s : App) : App :=
  OnGUIEvent c { s with gui := { s.gui with
    sliderValue := fun x => if x = c then v else s.gui.sliderValue x } }

/-- The initial element `{L"",1}` of the array `ShaderMacros` of `Cache`. -/
def blankMacro : Macro := { m_wsName := "", m_iValue := 1 }

/-- The flag constants with their identifiers, in the order of the `if` statements of
`Cache`: the fixed flag-to-token table of the specification. -/
def flagTokenTable : List (Nat × String) :=
  [(SS_ADAPT, "SS_ADAPT"), (DIST_ADAPT, "DIST_ADAPT"), (RES_ADAPT, "RES_ADAPT"),
   (ORIENT_ADAPT, "ORIENT_ADAPT"), (BF_CULL, "BF_CULL"), (FRUST_CULL, "FRUST_CULL"),
   (PHONG, "PHONG"), (PNTRI, "PNTRI")]

/-- The tokens of the entries of a table whose flag is set in `flags`, each with value 1,
in table order. -/
def tokensOf (flags : Nat) (tbl : List (Nat × String)) : List Macro :=
  (tbl.filter (fun e => decide (flags &&& e.1 ≠ 0))).map
    (fun e => { m_wsName := e.2, m_iValue := 1 })

/-- The specification's pure function from a flag set to the ordered sequence of macro
tokens: one token per set bit, translated through `flagTokenTable`. -/
def flags_to_macro_tokens (flags : Nat) : List Macro := tokensOf flags flagTokenTable

/-- The eight flag constants. -/
def flagConstants : List Nat :=
  [SS_ADAPT, DIST_ADAPT, RES_ADAPT, ORIENT_ADAPT, BF_CULL, FRUST_CULL, PHONG, PNTRI]

/-- The bitwise OR of a list of flags. -/
def orAll (fs : List Nat) : Nat := fs.foldl (fun a b => a ||| b) 0

/-- The number of set bits of a 32-bit value. -/
def popCount (n : Nat) : Nat := (List.range 32).countP (fun i => n.testBit i)

/-- The state of `Cache` between two `if` statements when the names `toks` have been
written: the array holds them in front of the untouched elements, and `flagCount` is their
number. -/
def macroState (toks : List Macro) : List Macro × Nat :=
  (toks ++ List.replicate (9 - toks.length) blankMacro, toks.length)

/-! Theorems -/

/-! Frame lemmas for `Cache` and `AddShadersToCache` -/

/-- A relation between states that `AddShader` and `Cache` preserve is preserved by
`AddShadersToCache`. -/
theorem AddShadersToCache_rel (R : App → App → Prop)
    (hA : ∀ r s s', R s s' → R (s.AddShader r) (s'.AddShader r))
    (hC : ∀ f s s', R s s' → R (Cache f s) (Cache f s')) :
    ∀ s s', R s s' → R (AddShadersToCache s) (AddShadersToCache s') := by
  have hfold : ∀ {α : Type} (f : App → α → App),
      (∀ a s s', R s s' → R (f s a) (f s' a)) →
      ∀ (l : List α) (s s' : App), R s s' → R (l.foldl f s) (l.foldl f s') := by
    intro α f hf l
    induction l with
    | nil => intro s s' h; exact h
    | cons a l ih => intro s s' h; exact ih _ _ (hf a s s' h)
  intro s s' h
  unfold AddShadersToCache
  refine hA _ _ _ (hA _ _ _ ?_)
  refine hfold _ ?_ _ _ _ (hA _ _ _ (hA _ _ _ h))
  intro o s s' h
  refine hfold _ ?_ _ _ _ h
  intro t s s' h
  refine hfold _ ?_ _ _ _ h
  intro c s s' h
  unfold cacheLoopBody
  exact hC _ _ _ (hC _ _ _ (hC _ _ _ (hC _ _ _ (hC _ _ _ h))))

/-- From any state, `AddShadersToCache` calls `Cache` with `registeredKeys`, in that order. -/
theorem AddShadersToCache_cacheCalls (s : App) :
    (AddShadersToCache s).cacheCalls = s.cacheCalls ++ registeredKeys := by
  have h := AddShadersToCache_rel (fun a b => a.cacheCalls = s.cacheCalls ++ b.cacheCalls)
    (fun r a b h => by simpa [App.AddShader] using h)
    (fun f a b h => by simp [Cache, App.AddShader, h])
    s staticInit (by simp [staticInit])
  exact h

/-- The hull-shader map after `AddShadersToCache` depends on the hull-shader map before
only. -/
theorem AddShadersToCache_hull (s s' : App) (h : s.g_HullShaders = s'.g_HullShaders) :
    (AddShadersToCache s).g_HullShaders = (AddShadersToCache s').g_HullShaders :=
  AddShadersToCache_rel (fun a b => a.g_HullShaders = b.g_HullShaders)
    (fun r a b h => by simpa [App.AddShader] using h)
    (fun f a b h => by simp [Cache, App.AddShader, h]) s s' h

/-- The domain-shader map after `AddShadersToCache` depends on the domain-shader map before
only. -/
theorem AddShadersToCache_domain (s s' : App) (h : s.g_DomainShaders = s'.g_DomainShaders) :
    (AddShadersToCache s).g_DomainShaders = (AddShadersToCache s').g_DomainShaders :=
  AddShadersToCache_rel (fun a b => a.g_DomainShaders = b.g_DomainShaders)
    (fun r a b h => by simpa [App.AddShader] using h)
    (fun f a b h => by simp [Cache, App.AddShader, h]) s s' h

/-- Claim C1. `AddShadersToCache` calls `Cache` exactly 80 times, with pairwise distinct flag
values; started with both maps empty it leaves exactly 80 keys in `g_HullShaders` and in
`g_DomainShaders`, namely the flag values passed. -/
theorem C1_eighty_distinct_keys (s : App) (hh : s.g_HullShaders = [])
    (hd : s.g_DomainShaders = []) :
    (AddShadersToCache s).cacheCalls = s.cacheCalls ++ registeredKeys ∧
    registeredKeys.length = 80 ∧ registeredKeys.Nodup ∧
    (AddShadersToCache s).g_HullShaders.keys.length = 80 ∧
    (AddShadersToCache s).g_HullShaders.keys.Nodup ∧
    (AddShadersToCache s).g_HullShaders.keys.Perm registeredKeys ∧
    (AddShadersToCache s).g_DomainShaders.keys.length = 80 ∧
    (AddShadersToCache s).g_DomainShaders.keys.Nodup ∧
    (AddShadersToCache s).g_DomainShaders.keys.Perm registeredKeys := by
  have h1 := AddShadersToCache_hull s staticInit (by rw [hh]; rfl)
  have h2 := AddShadersToCache_domain s staticInit (by rw [hd]; rfl)
  refine ⟨AddShadersToCache_cacheCalls s, by decide!, by decide!, ?_, ?_, ?_, ?_, ?_, ?_⟩
  · rw [h1]; decide!
  · rw [h1]; decide!
  · rw [h1]; decide!
  · rw [h2]; decide!
  · rw [h2]; decide!
  · rw [h2]; decide!

/-- Witness for claim C1: the state `InitApp` builds has empty shader maps. -/
theorem C1_eighty_distinct_keys_witness :
    initState.g_HullShaders = [] ∧ initState.g_DomainShaders = [] ∧
    (AddShadersToCache initState).cacheCalls.length = 80 ∧
    (AddShadersToCache initState).g_HullShaders.keys.length = 80 ∧
    (AddShadersToCache initState).g_DomainShaders.keys.length = 80 := by
  have h := C1_eighty_distinct_keys initState (by rfl) (by rfl)
  refine ⟨by rfl, by rfl, ?_, h.2.2.2.1, h.2.2.2.2.2.2.1⟩
  rw [h.1, List.length_append, h.2.1]; rfl

/-- Claim C3. The keys passed to `Cache` are exactly the values `t | c | o | a` with `t` a
technique bit, `c` a culling combination, `o` the orientation choice and `a` one of the five
adaptivity states; among them are 256, 257 and 262; none has `SS_ADAPT` together with
`DIST_ADAPT` or `RES_ADAPT`. -/
theorem C3_registered_key_set :
    (∀ s : App, (AddShadersToCache s).cacheCalls = s.cacheCalls ++ registeredKeys) ∧
    (∀ k : Nat, k ∈ registeredKeys ↔
      ∃ t ∈ [PNTRI, PHONG], ∃ c ∈ [0, BF_CULL, FRUST_CULL, FRUST_CULL ||| BF_CULL],
      ∃ o ∈ [0, ORIENT_ADAPT],
      ∃ a ∈ [0, SS_ADAPT, DIST_ADAPT, DIST_ADAPT ||| RES_ADAPT, RES_ADAPT],
        k = t ||| c ||| o ||| a) ∧
    PNTRI ∈ registeredKeys ∧ PNTRI = 256 ∧
    PNTRI ||| SS_ADAPT ∈ registeredKeys ∧ PNTRI ||| SS_ADAPT = 257 ∧
    PNTRI ||| DIST_ADAPT ||| RES_ADAPT ∈ registeredKeys ∧
    PNTRI ||| DIST_ADAPT ||| RES_ADAPT = 262 ∧
    (∀ k ∈ registeredKeys,
      ¬ (k &&& SS_ADAPT ≠ 0 ∧ (k &&& DIST_ADAPT ≠ 0 ∨ k &&& RES_ADAPT ≠ 0))) := by
  refine ⟨AddShadersToCache_cacheCalls, ?_, by decide!, by decide, by decide!, by decide,
    by decide!, by decide, by decide!⟩
  intro k
  constructor
  · revert k
    decide!
  · rintro ⟨t, ht, c, hc, o, ho, a, ha, rfl⟩
    revert t c o a
    decide!

/-! What `SetShaderFromUI` computes -/

@[simp] theorem SetEnabled_checked (s : App) (c : Ctl) (b : Bool) :
    (s.SetEnabled c b).gui.checked = s.gui.checked := rfl

@[simp] theorem SetEnabled_comboTess (s : App) (c : Ctl) (b : Bool) :
    (s.SetEnabled c b).gui.comboTess = s.gui.comboTess := rfl

@[simp] theorem SetEnabled_hash (s : App) (c : Ctl) (b : Bool) :
    (s.SetEnabled c b).HullShaderHash = s.HullShaderHash := rfl

@[simp] theorem SetEnabledAll_checked (cs : List Ctl) (b : Bool) (s : App) :
    (s.SetEnabledAll cs b).gui.checked = s.gui.checked := by
  induction cs generalizing s with
  | nil => rfl
  | cons c cs ih => simp only [App.SetEnabledAll, List.foldl_cons] at ih ⊢; rw [ih]; rfl

@[simp] theorem SetEnabledAll_comboTess (cs : List Ctl) (b : Bool) (s : App) :
    (s.SetEnabledAll cs b).gui.comboTess = s.gui.comboTess := by
  induction cs generalizing s with
  | nil => rfl
  | cons c cs ih => simp only [App.SetEnabledAll, List.foldl_cons] at ih ⊢; rw [ih]; rfl

@[simp] theorem SetChecked_comboTess (s : App) (c : Ctl) (b : Bool) :
    (s.SetChecked c b).gui.comboTess = s.gui.comboTess := rfl

@[simp] theorem SetChecked_checked (s : App) (c : Ctl) (b : Bool) (x : Ctl) :
    (s.SetChecked c b).gui.checked x = if x = c then b else s.gui.checked x := rfl

theorem checkboxBlock_hash (box slider : Ctl) (bit : Nat) (s : App) :
    (checkboxBlock box slider bit s).HullShaderHash =
      s.HullShaderHash ||| bitIf (s.gui.checked box) bit := by
  unfold checkboxBlock bitIf
  cases s.gui.checked box <;> simp [App.orHash]

@[simp] theorem checkboxBlock_checked (box slider : Ctl) (bit : Nat) (s : App) :
    (checkboxBlock box slider bit s).gui.checked = s.gui.checked := by
  unfold checkboxBlock
  cases s.gui.checked box <;> simp [App.orHash]

@[simp] theorem checkboxBlock_comboTess (box slider : Ctl) (bit : Nat) (s : App) :
    (checkboxBlock box slider bit s).gui.comboTess = s.gui.comboTess := by
  unfold checkboxBlock
  cases s.gui.checked box <;> simp [App.orHash]

/-- The function `SetShaderFromUI` changes no check box. -/
@[simp] theorem SetShaderFromUI_checked (s : App) :
    (SetShaderFromUI s).gui.checked = s.gui.checked := by
  unfold SetShaderFromUI
  simp only [checkboxBlock_checked]
  split_ifs <;> simp [App.orHash]

/-- The function `SetShaderFromUI` does not change the combo selection. -/
@[simp] theorem SetShaderFromUI_comboTess (s : App) :
    (SetShaderFromUI s).gui.comboTess = s.gui.comboTess := by
  unfold SetShaderFromUI
  simp only [checkboxBlock_comboTess]
  split_ifs <;> simp [App.orHash]

/-- The function `SetShaderFromUI` overwrites `HullShaderHash` with the key of the toggle state. -/
theorem SetShaderFromUI_hash (s : App) :
    (SetShaderFromUI s).HullShaderHash = keyOfGUI s.gui := by
  unfold SetShaderFromUI keyOfGUI keyOfToggles techniqueBit
  simp only [checkboxBlock_hash, checkboxBlock_checked]
  split_ifs <;> simp_all [App.orHash]

/-- After `SetShaderFromUI`, `HullShaderHash` is the key of the toggle state of the dialog. -/
theorem SetShaderFromUI_synced (s : App) :
    (SetShaderFromUI s).HullShaderHash = keyOfGUI (SetShaderFromUI s).gui := by
  rw [SetShaderFromUI_hash]
  simp [keyOfGUI]

/-! Invariants of the reachable GUI states -/

theorem GuiInv_initState : GuiInv initState := by
  refine ⟨?_, ?_, ?_⟩
  · simp [initState, InitApp]
  · exact SetShaderFromUI_synced _
  · simp [initState, InitApp, Exclusive]

theorem GuiInv_select (s : App) (i : Nat) (hi : i < 3) (h : GuiInv s) :
    GuiInv (selectTessellation i s) := by
  obtain ⟨_, _, h3⟩ := h
  unfold selectTessellation
  simp only [OnGUIEvent]
  refine ⟨?_, SetShaderFromUI_synced _, ?_⟩
  · simpa using hi
  · simpa [Exclusive] using h3

theorem GuiInv_click (s : App) (c : Ctl) (hc : c ∈ tessCheckboxes) (h : GuiInv s) :
    GuiInv (clickCheckbox c s) := by
  obtain ⟨h1, _, h3⟩ := h
  unfold Exclusive at h3
  simp only [tessCheckboxes, List.mem_cons, List.mem_singleton, List.not_mem_nil, or_false] at hc
  rcases hc with rfl | rfl | rfl | rfl | rfl | rfl <;>
    unfold clickCheckbox <;> simp only [OnGUIEvent] <;>
    refine ⟨?_, SetShaderFromUI_synced _, ?_⟩ <;>
    cases hss : s.gui.checked IDC_CHECKBOX_SCREEN_SPACE_ADAPTIVE <;>
    cases hdist : s.gui.checked IDC_CHECKBOX_DISTANCE_ADAPTIVE <;>
    cases hres : s.gui.checked IDC_CHECKBOX_SCREEN_RESOLUTION_ADAPTIVE <;>
    simp_all [Exclusive]

theorem Reachable.guiInv {s : App} (h : Reachable s) : GuiInv s := by
  induction h with
  | init => exact GuiInv_initState
  | select s i hi _ ih => exact GuiInv_select s i hi ih
  | click s c hc _ ih => exact GuiInv_click s c hc ih

/-- Every key of an exclusive toggle state with the combo on PN or Phong is passed to `Cache`
by `AddShadersToCache`. -/
theorem keyOfToggles_registered :
    ∀ i ∈ [TESSELLATION_COMBO_PN_TESSELLATION, TESSELLATION_COMBO_PHONG_TESSELLATION],
    ∀ ss dist res orient bf frust : Bool, (ss && (dist || res)) = false →
      keyOfToggles i ss dist res orient bf frust ∈ registeredKeys := by
  decide!

/-- The keys of `g_HullShaders` after `AddShadersToCache` on the state `InitApp` builds. -/
theorem hullKeys_initState :
    (AddShadersToCache initState).g_HullShaders.keys.Perm registeredKeys := by
  decide!

/-- The keys of `g_DomainShaders` after `AddShadersToCache` on the state `InitApp` builds. -/
theorem domainKeys_initState :
    (AddShadersToCache initState).g_DomainShaders.keys.Perm registeredKeys := by
  decide!

/-- In a state satisfying the invariant with tessellation on, `HullShaderHash` is a
registered key. -/
theorem GuiInv.registered {s : App} (h : GuiInv s)
    (hc : s.gui.comboTess ≠ TESSELLATION_COMBO_NO_TESSELLATION) :
    s.HullShaderHash ∈ registeredKeys := by
  obtain ⟨h1, h2, h3⟩ := h
  rw [h2]
  refine keyOfToggles_registered _ ?_ _ _ _ _ _ _ h3
  have hc' : s.gui.comboTess ≠ 0 := hc
  have : s.gui.comboTess = 1 ∨ s.gui.comboTess = 2 := by omega
  simpa using this

/-- Claim C2. Exhaustiveness: in every GUI state reachable from the state `InitApp` builds by
combo selections and check-box flips followed by `OnGUIEvent`, if the combo does not select
'No tessellation' then `HullShaderHash` is one of the keys `AddShadersToCache` passes to
`Cache`, hence a key of `g_HullShaders` and of `g_DomainShaders`. -/
theorem C2_reachable_key_registered (s : App) (h : Reachable s)
    (hc : s.gui.comboTess ≠ TESSELLATION_COMBO_NO_TESSELLATION) :
    s.HullShaderHash ∈ registeredKeys ∧
    s.HullShaderHash ∈ (AddShadersToCache initState).g_HullShaders.keys ∧
    s.HullShaderHash ∈ (AddShadersToCache initState).g_DomainShaders.keys := by
  have hk := h.guiInv.registered hc
  exact ⟨hk, hullKeys_initState.mem_iff.mpr hk, domainKeys_initState.mem_iff.mpr hk⟩

/-- Witness for claim C2: after the user checks 'Back Face Cull' and then selects
'PN tessellation', the key is `PNTRI | BF_CULL`, which is registered. -/
theorem C2_reachable_key_registered_witness :
    (selectTessellation 1 (clickCheckbox IDC_CHECKBOX_BACK_FACE_CULL initState)).HullShaderHash
      = PNTRI ||| BF_CULL ∧
    PNTRI ||| BF_CULL ∈ (AddShadersToCache initState).g_HullShaders.keys := by
  have h := C2_reachable_key_registered
    (selectTessellation 1 (clickCheckbox IDC_CHECKBOX_BACK_FACE_CULL initState))
    (Reachable.select _ 1 (by decide) (Reachable.click _ _ (by decide) Reachable.init))
    (by decide)
  have e : (selectTessellation 1
      (clickCheckbox IDC_CHECKBOX_BACK_FACE_CULL initState)).HullShaderHash
      = PNTRI ||| BF_CULL := by decide
  exact ⟨e, e ▸ h.2.1⟩

/-! Paths of user actions -/

theorem UserReachable.reachable {s : App} (h : UserReachable s) : Reachable s := by
  induction h with
  | init => exact Reachable.init
  | select s i hi _ ih => exact Reachable.select s i hi ih
  | click s c hc _ _ ih => exact Reachable.click s c hc ih

theorem UserReachable.runEvents (es : List UIEvent) :
    ∀ s : App, UserReachable s → userPath s es = true → UserReachable (runEvents s es) := by
  induction es with
  | nil => intro s h _; exact h
  | cons e es ih =>
    intro s h hp
    simp only [userPath, Bool.and_eq_true] at hp
    have hstep : UserReachable (uiStep s e) := by
      cases e with
      | select i => exact UserReachable.select s i.val i.isLt h
      | click c =>
        simp only [allowed, Bool.and_eq_true, decide_eq_true_eq] at hp
        exact UserReachable.click s c hp.1.1 hp.1.2 h
    exact ih _ hstep hp.2

theorem pathTo_registered :
    ∀ k ∈ registeredKeys,
      userPath initState (pathTo k) = true ∧
      (runEvents initState (pathTo k)).gui.comboTess ≠ TESSELLATION_COMBO_NO_TESSELLATION ∧
      (runEvents initState (pathTo k)).HullShaderHash = k := by
  decide!

/-- Claim C4. Minimality: every key `AddShadersToCache` registers is the `HullShaderHash` of a
GUI state with tessellation on that is reachable from the state `InitApp` builds by combo
selections and check-box flips followed by `OnGUIEvent`; the state can be reached flipping
enabled check boxes only. -/
theorem C4_registered_key_reachable (k : Nat) (hk : k ∈ registeredKeys) :
    ∃ s : App, Reachable s ∧ UserReachable s ∧
      s.gui.comboTess ≠ TESSELLATION_COMBO_NO_TESSELLATION ∧ s.HullShaderHash = k := by
  obtain ⟨h1, h2, h3⟩ := pathTo_registered k hk
  have hu := UserReachable.runEvents (pathTo k) initState UserReachable.init h1
  exact ⟨_, hu.reachable, hu, h2, h3⟩

/-- Witness for claim C4: the registered key `PNTRI | DIST_ADAPT | RES_ADAPT` is reachable. -/
theorem C4_registered_key_reachable_witness :
    PNTRI ||| DIST_ADAPT ||| RES_ADAPT ∈ registeredKeys ∧
    ∃ s : App, Reachable s ∧ UserReachable s ∧
      s.gui.comboTess ≠ TESSELLATION_COMBO_NO_TESSELLATION ∧
      s.HullShaderHash = PNTRI ||| DIST_ADAPT ||| RES_ADAPT :=
  ⟨by decide!, C4_registered_key_reachable (PNTRI ||| DIST_ADAPT ||| RES_ADAPT) (by decide!)⟩

/-- Bit tests on the key of a toggle state with the combo on PN or Phong. -/
theorem keyOfToggles_bits :
    ∀ i ∈ [TESSELLATION_COMBO_PN_TESSELLATION, TESSELLATION_COMBO_PHONG_TESSELLATION],
    ∀ ss dist res orient bf frust : Bool,
      (keyOfToggles i ss dist res orient bf frust &&& SS_ADAPT ≠ 0 ↔ ss = true) ∧
      (keyOfToggles i ss dist res orient bf frust &&& DIST_ADAPT ≠ 0 ↔ dist = true) ∧
      (keyOfToggles i ss dist res orient bf frust &&& RES_ADAPT ≠ 0 ↔ res = true) ∧
      (keyOfToggles i ss dist res orient bf frust &&& ORIENT_ADAPT ≠ 0 ↔ orient = true) ∧
      (keyOfToggles i ss dist res orient bf frust &&& BF_CULL ≠ 0 ↔ bf = true) ∧
      (keyOfToggles i ss dist res orient bf frust &&& FRUST_CULL ≠ 0 ↔ frust = true) ∧
      (keyOfToggles i ss dist res orient bf frust &&& PNTRI ≠ 0 ↔
        i = TESSELLATION_COMBO_PN_TESSELLATION) ∧
      (keyOfToggles i ss dist res orient bf frust &&& PHONG ≠ 0 ↔
        i = TESSELLATION_COMBO_PHONG_TESSELLATION) := by
  decide!

theorem mem_pn_phong {i : Nat} (h : i = TESSELLATION_COMBO_PN_TESSELLATION ∨
    i = TESSELLATION_COMBO_PHONG_TESSELLATION) :
    i ∈ [TESSELLATION_COMBO_PN_TESSELLATION, TESSELLATION_COMBO_PHONG_TESSELLATION] := by
  simpa using h

/-- Claim C5. Key derivation: with the combo on PN or Phong and the screen-space box
unchecked, `SetShaderFromUI` sets `HullShaderHash`, whatever it held before, to the OR of
the technique bit and of the flags of exactly the checked boxes among distance, resolution,
orientation, back-face cull and frustum cull. -/
theorem C5_key_derivation (s : App)
    (hc : s.gui.comboTess = TESSELLATION_COMBO_PN_TESSELLATION ∨
      s.gui.comboTess = TESSELLATION_COMBO_PHONG_TESSELLATION)
    (hss : s.gui.checked IDC_CHECKBOX_SCREEN_SPACE_ADAPTIVE = false) :
    (SetShaderFromUI s).HullShaderHash =
      (if s.gui.comboTess = TESSELLATION_COMBO_PN_TESSELLATION then PNTRI else PHONG) |||
      (if s.gui.checked IDC_CHECKBOX_DISTANCE_ADAPTIVE then DIST_ADAPT else 0) |||
      (if s.gui.checked IDC_CHECKBOX_SCREEN_RESOLUTION_ADAPTIVE then RES_ADAPT else 0) |||
      (if s.gui.checked IDC_CHECKBOX_ORIENTATION_ADAPTIVE then ORIENT_ADAPT else 0) |||
      (if s.gui.checked IDC_CHECKBOX_BACK_FACE_CULL then BF_CULL else 0) |||
      (if s.gui.checked IDC_CHECKBOX_VIEW_FRUSTUM_CULL then FRUST_CULL else 0) ∧
    (SetShaderFromUI s).HullShaderHash &&& SS_ADAPT = 0 ∧
    ((SetShaderFromUI s).HullShaderHash &&& DIST_ADAPT ≠ 0 ↔
      s.gui.checked IDC_CHECKBOX_DISTANCE_ADAPTIVE = true) ∧
    ((SetShaderFromUI s).HullShaderHash &&& RES_ADAPT ≠ 0 ↔
      s.gui.checked IDC_CHECKBOX_SCREEN_RESOLUTION_ADAPTIVE = true) ∧
    ((SetShaderFromUI s).HullShaderHash &&& ORIENT_ADAPT ≠ 0 ↔
      s.gui.checked IDC_CHECKBOX_ORIENTATION_ADAPTIVE = true) ∧
    ((SetShaderFromUI s).HullShaderHash &&& BF_CULL ≠ 0 ↔
      s.gui.checked IDC_CHECKBOX_BACK_FACE_CULL = true) ∧
    ((SetShaderFromUI s).HullShaderHash &&& FRUST_CULL ≠ 0 ↔
      s.gui.checked IDC_CHECKBOX_VIEW_FRUSTUM_CULL = true) := by
  have hb := keyOfToggles_bits _ (mem_pn_phong hc)
    (s.gui.checked IDC_CHECKBOX_SCREEN_SPACE_ADAPTIVE)
    (s.gui.checked IDC_CHECKBOX_DISTANCE_ADAPTIVE)
    (s.gui.checked IDC_CHECKBOX_SCREEN_RESOLUTION_ADAPTIVE)
    (s.gui.checked IDC_CHECKBOX_ORIENTATION_ADAPTIVE)
    (s.gui.checked IDC_CHECKBOX_BACK_FACE_CULL)
    (s.gui.checked IDC_CHECKBOX_VIEW_FRUSTUM_CULL)
  rw [SetShaderFromUI_hash]
  unfold keyOfGUI at *
  obtain ⟨b1, b2, b3, b4, b5, b6, _, _⟩ := hb
  refine ⟨?_, ?_, b2, b3, b4, b5, b6⟩
  · rw [hss]
    rcases hc with hc | hc <;> rw [hc] <;>
      simp [keyOfToggles, techniqueBit, bitIf]
  · have := b1.not
    simpa [hss] using this

/-- Witness for claim C5: Phong, back-face cull on, frustum cull off, orientation off,
screen-space off, distance on, resolution on gives `PHONG | BF_CULL | DIST_ADAPT | RES_ADAPT`
(166), a key `AddShadersToCache` registers. -/
theorem C5_key_derivation_witness :
    (SetShaderFromUI (toggleState TESSELLATION_COMBO_PHONG_TESSELLATION
      false true true false true false)).HullShaderHash
        = PHONG ||| BF_CULL ||| DIST_ADAPT ||| RES_ADAPT ∧
    PHONG ||| BF_CULL ||| DIST_ADAPT ||| RES_ADAPT = 166 ∧
    166 ∈ registeredKeys := by
  have h := (C5_key_derivation (toggleState TESSELLATION_COMBO_PHONG_TESSELLATION
      false true true false true false) (Or.inr rfl) rfl).1
  refine ⟨h.trans (by decide), by decide, by decide!⟩

/-- Claim C6. With the combo on 'No tessellation' and the back-face-cull box checked,
`SetShaderFromUI` leaves `BF_CULL` (32) in `HullShaderHash`, not 0: the `break` of the
'No tessellation' case leaves the `switch` only, and the check-box blocks that follow OR
their flags in.  The state arises when the user checks the box and then selects
'No tessellation'. -/
theorem C6_no_tessellation_hash_nonzero :
    (toggleState TESSELLATION_COMBO_NO_TESSELLATION
      false false false false true false).gui.comboTess = TESSELLATION_COMBO_NO_TESSELLATION ∧
    (SetShaderFromUI (toggleState TESSELLATION_COMBO_NO_TESSELLATION
      false false false false true false)).HullShaderHash = 32 ∧
    UserReachable (runEvents initState
      [UIEvent.click IDC_CHECKBOX_BACK_FACE_CULL, UIEvent.select 0]) ∧
    (runEvents initState
      [UIEvent.click IDC_CHECKBOX_BACK_FACE_CULL, UIEvent.select 0]).gui.comboTess
        = TESSELLATION_COMBO_NO_TESSELLATION ∧
    (runEvents initState
      [UIEvent.click IDC_CHECKBOX_BACK_FACE_CULL, UIEvent.select 0]).HullShaderHash = 32 := by
  refine ⟨rfl, by decide, ?_, by decide, by decide⟩
  exact UserReachable.runEvents _ _ UserReachable.init (by decide)

/-- Counterexample to claim C7 as stated: PN, screen-space and distance both checked gives the
key 259, which contains `SS_ADAPT` and `DIST_ADAPT`. -/
theorem C7_counterexample :
    (toggleState TESSELLATION_COMBO_PN_TESSELLATION
      true true false false false false).gui.comboTess = TESSELLATION_COMBO_PN_TESSELLATION ∧
    (toggleState TESSELLATION_COMBO_PN_TESSELLATION
      true true false false false false).gui.checked IDC_CHECKBOX_SCREEN_SPACE_ADAPTIVE = true ∧
    (SetShaderFromUI (toggleState TESSELLATION_COMBO_PN_TESSELLATION
      true true false false false false)).HullShaderHash = 259 ∧
    259 &&& SS_ADAPT ≠ 0 ∧ 259 &&& DIST_ADAPT ≠ 0 := by
  refine ⟨rfl, rfl, by decide, by decide, by decide⟩

/-- Claim C7, amended. With the combo on PN or Phong and the screen-space box checked, the
key `SetShaderFromUI` computes contains `SS_ADAPT`; it contains `DIST_ADAPT` exactly when the
distance box is checked and `RES_ADAPT` exactly when the resolution box is checked, so
neither when both are unchecked. -/
theorem C7_screen_space_key (s : App)
    (hc : s.gui.comboTess = TESSELLATION_COMBO_PN_TESSELLATION ∨
      s.gui.comboTess = TESSELLATION_COMBO_PHONG_TESSELLATION)
    (hss : s.gui.checked IDC_CHECKBOX_SCREEN_SPACE_ADAPTIVE = true) :
    (SetShaderFromUI s).HullShaderHash &&& SS_ADAPT ≠ 0 ∧
    ((SetShaderFromUI s).HullShaderHash &&& DIST_ADAPT ≠ 0 ↔
      s.gui.checked IDC_CHECKBOX_DISTANCE_ADAPTIVE = true) ∧
    ((SetShaderFromUI s).HullShaderHash &&& RES_ADAPT ≠ 0 ↔
      s.gui.checked IDC_CHECKBOX_SCREEN_RESOLUTION_ADAPTIVE = true) ∧
    (s.gui.checked IDC_CHECKBOX_DISTANCE_ADAPTIVE = false →
      s.gui.checked IDC_CHECKBOX_SCREEN_RESOLUTION_ADAPTIVE = false →
      (SetShaderFromUI s).HullShaderHash &&& DIST_ADAPT = 0 ∧
      (SetShaderFromUI s).HullShaderHash &&& RES_ADAPT = 0) := by
  have hb := keyOfToggles_bits _ (mem_pn_phong hc)
    (s.gui.checked IDC_CHECKBOX_SCREEN_SPACE_ADAPTIVE)
    (s.gui.checked IDC_CHECKBOX_DISTANCE_ADAPTIVE)
    (s.gui.checked IDC_CHECKBOX_SCREEN_RESOLUTION_ADAPTIVE)
    (s.gui.checked IDC_CHECKBOX_ORIENTATION_ADAPTIVE)
    (s.gui.checked IDC_CHECKBOX_BACK_FACE_CULL)
    (s.gui.checked IDC_CHECKBOX_VIEW_FRUSTUM_CULL)
  rw [SetShaderFromUI_hash]
  unfold keyOfGUI at *
  obtain ⟨b1, b2, b3, _⟩ := hb
  refine ⟨b1.mpr hss, b2, b3, ?_⟩
  intro hd hr
  have n2 := b2.not
  have n3 := b3.not
  simp only [hd, hr, not_not, Bool.false_eq_true, not_false_eq_true, iff_true] at n2 n3
  simpa [hd, hr] using And.intro n2 n3

/-- Witness for claim C7 (amended): PN with only the screen-space box checked gives 257. -/
theorem C7_screen_space_key_witness :
    (SetShaderFromUI (toggleState TESSELLATION_COMBO_PN_TESSELLATION
      true false false false false false)).HullShaderHash = 257 ∧
    (SetShaderFromUI (toggleState TESSELLATION_COMBO_PN_TESSELLATION
      true false false false false false)).HullShaderHash &&& SS_ADAPT ≠ 0 ∧
    (SetShaderFromUI (toggleState TESSELLATION_COMBO_PN_TESSELLATION
      true false false false false false)).HullShaderHash &&& DIST_ADAPT = 0 ∧
    (SetShaderFromUI (toggleState TESSELLATION_COMBO_PN_TESSELLATION
      true false false false false false)).HullShaderHash &&& RES_ADAPT = 0 := by
  have h := C7_screen_space_key (toggleState TESSELLATION_COMBO_PN_TESSELLATION
      true false false false false false) (Or.inl rfl) rfl
  exact ⟨by decide, h.1, (h.2.2.2 rfl rfl).1, (h.2.2.2 rfl rfl).2⟩

/-- The key of an exclusive toggle state never has `SS_ADAPT` together with `DIST_ADAPT` or
`RES_ADAPT`, whatever the combo index. -/
theorem keyOfToggles_exclusive :
    ∀ i ∈ [TESSELLATION_COMBO_NO_TESSELLATION, TESSELLATION_COMBO_PN_TESSELLATION,
      TESSELLATION_COMBO_PHONG_TESSELLATION],
    ∀ ss dist res orient bf frust : Bool, (ss && (dist || res)) = false →
      ¬ (keyOfToggles i ss dist res orient bf frust &&& SS_ADAPT ≠ 0 ∧
        (keyOfToggles i ss dist res orient bf frust &&& DIST_ADAPT ≠ 0 ∨
          keyOfToggles i ss dist res orient bf frust &&& RES_ADAPT ≠ 0)) := by
  decide!

/-- Claim C8. In every GUI state reachable from the state `InitApp` builds by `OnGUIEvent`
steps, the screen-space box is not checked together with the distance box or the resolution
box, and `HullShaderHash` does not have `SS_ADAPT` together with `DIST_ADAPT` or
`RES_ADAPT`. -/
theorem C8_reachable_exclusive (s : App) (h : Reachable s) :
    ¬ (s.gui.checked IDC_CHECKBOX_SCREEN_SPACE_ADAPTIVE = true ∧
        (s.gui.checked IDC_CHECKBOX_DISTANCE_ADAPTIVE = true ∨
          s.gui.checked IDC_CHECKBOX_SCREEN_RESOLUTION_ADAPTIVE = true)) ∧
    ¬ (s.HullShaderHash &&& SS_ADAPT ≠ 0 ∧
        (s.HullShaderHash &&& DIST_ADAPT ≠ 0 ∨ s.HullShaderHash &&& RES_ADAPT ≠ 0)) := by
  obtain ⟨h1, h2, h3⟩ := h.guiInv
  constructor
  · unfold Exclusive at h3
    intro hx
    rcases hx with ⟨a, b | b⟩ <;> simp [a, b] at h3
  · rw [h2]
    refine keyOfToggles_exclusive _ ?_ _ _ _ _ _ _ h3
    have : s.gui.comboTess = 0 ∨ s.gui.comboTess = 1 ∨ s.gui.comboTess = 2 := by omega
    simpa using this

/-- Witness for claim C8: the user checks 'Screen Space Edge Size' and then 'Distance'; the
handler has unchecked the screen-space box, and the key is `PHONG | DIST_ADAPT`. -/
theorem C8_reachable_exclusive_witness :
    (clickCheckbox IDC_CHECKBOX_DISTANCE_ADAPTIVE
      (clickCheckbox IDC_CHECKBOX_SCREEN_SPACE_ADAPTIVE initState)).HullShaderHash
        = PHONG ||| DIST_ADAPT ∧
    ¬ ((clickCheckbox IDC_CHECKBOX_DISTANCE_ADAPTIVE
        (clickCheckbox IDC_CHECKBOX_SCREEN_SPACE_ADAPTIVE initState)).gui.checked
          IDC_CHECKBOX_SCREEN_SPACE_ADAPTIVE = true ∧
      ((clickCheckbox IDC_CHECKBOX_DISTANCE_ADAPTIVE
        (clickCheckbox IDC_CHECKBOX_SCREEN_SPACE_ADAPTIVE initState)).gui.checked
          IDC_CHECKBOX_DISTANCE_ADAPTIVE = true ∨
       (clickCheckbox IDC_CHECKBOX_DISTANCE_ADAPTIVE
        (clickCheckbox IDC_CHECKBOX_SCREEN_SPACE_ADAPTIVE initState)).gui.checked
          IDC_CHECKBOX_SCREEN_RESOLUTION_ADAPTIVE = true)) :=
  ⟨by decide,
   (C8_reachable_exclusive _
    (Reachable.click _ IDC_CHECKBOX_DISTANCE_ADAPTIVE (by decide)
      (Reachable.click _ IDC_CHECKBOX_SCREEN_SPACE_ADAPTIVE (by decide) Reachable.init))).1⟩

/-- Claim C9. With the combo on PN or Phong, whatever the check boxes hold, the key
`SetShaderFromUI` computes has exactly one of the bits `PHONG` and `PNTRI`: `PNTRI` and not
`PHONG` for PN, `PHONG` and not `PNTRI` for Phong. -/
theorem C9_exactly_one_technique (s : App)
    (hc : s.gui.comboTess = TESSELLATION_COMBO_PN_TESSELLATION ∨
      s.gui.comboTess = TESSELLATION_COMBO_PHONG_TESSELLATION) :
    (s.gui.comboTess = TESSELLATION_COMBO_PN_TESSELLATION →
      (SetShaderFromUI s).HullShaderHash &&& PNTRI ≠ 0 ∧
      (SetShaderFromUI s).HullShaderHash &&& PHONG = 0) ∧
    (s.gui.comboTess = TESSELLATION_COMBO_PHONG_TESSELLATION →
      (SetShaderFromUI s).HullShaderHash &&& PHONG ≠ 0 ∧
      (SetShaderFromUI s).HullShaderHash &&& PNTRI = 0) := by
  have hb := keyOfToggles_bits _ (mem_pn_phong hc)
    (s.gui.checked IDC_CHECKBOX_SCREEN_SPACE_ADAPTIVE)
    (s.gui.checked IDC_CHECKBOX_DISTANCE_ADAPTIVE)
    (s.gui.checked IDC_CHECKBOX_SCREEN_RESOLUTION_ADAPTIVE)
    (s.gui.checked IDC_CHECKBOX_ORIENTATION_ADAPTIVE)
    (s.gui.checked IDC_CHECKBOX_BACK_FACE_CULL)
    (s.gui.checked IDC_CHECKBOX_VIEW_FRUSTUM_CULL)
  rw [SetShaderFromUI_hash]
  unfold keyOfGUI at *
  obtain ⟨_, _, _, _, _, _, b7, b8⟩ := hb
  constructor
  · intro h
    refine ⟨b7.mpr h, ?_⟩
    have n := b8.not
    rw [not_not] at n
    exact n.mpr (by rw [h]; decide)
  · intro h
    refine ⟨b8.mpr h, ?_⟩
    have n := b7.not
    rw [not_not] at n
    exact n.mpr (by rw [h]; decide)

/-- Witness for claim C9: PN with every box checked has `PNTRI` and not `PHONG`. -/
theorem C9_exactly_one_technique_witness :
    (SetShaderFromUI (toggleState TESSELLATION_COMBO_PN_TESSELLATION
      true true true true true true)).HullShaderHash &&& PNTRI ≠ 0 ∧
    (SetShaderFromUI (toggleState TESSELLATION_COMBO_PN_TESSELLATION
      true true true true true true)).HullShaderHash &&& PHONG = 0 := by
  have h := C9_exactly_one_technique (toggleState TESSELLATION_COMBO_PN_TESSELLATION
      true true true true true true) (Or.inl rfl)
  exact h.1 rfl

/-- Claim C10. Sentinel in the render path: in `OnD3D11FrameRender` with the settings dialog
inactive and `ShadersReady()` true, when the combo selects 'No tessellation' the hull shader
and the domain shader bound are `NULL`, neither shader map is accessed, and both maps are
left as they were, for every `HullShaderHash` and every setting of the check boxes. -/
theorem C10_no_tessellation_binds_null (ready2 : Bool) (s : App)
    (hdlg : s.settingsDlgActive = false)
    (hc : s.gui.comboTess = TESSELLATION_COMBO_NO_TESSELLATION) :
    RenderCall.HSSetShader NULL ∈ (OnD3D11FrameRender true ready2 s).2 ∧
    RenderCall.DSSetShader NULL ∈ (OnD3D11FrameRender true ready2 s).2 ∧
    (∀ p, RenderCall.HSSetShader p ∈ (OnD3D11FrameRender true ready2 s).2 → p = NULL) ∧
    (∀ p, RenderCall.DSSetShader p ∈ (OnD3D11FrameRender true ready2 s).2 → p = NULL) ∧
    (∀ k, RenderCall.HullShadersSubscript k ∉ (OnD3D11FrameRender true ready2 s).2) ∧
    (∀ k, RenderCall.DomainShadersSubscript k ∉ (OnD3D11FrameRender true ready2 s).2) ∧
    (OnD3D11FrameRender true ready2 s).1.g_HullShaders = s.g_HullShaders ∧
    (OnD3D11FrameRender true ready2 s).1.g_DomainShaders = s.g_DomainShaders := by
  cases ready2 <;> cases hh : s.g_bRenderHUD <;>
    simp [OnD3D11FrameRender, renderScene, hdlg, hc, hh]

/-- Witness for claim C10: the state reached by selecting 'No tessellation' with the
back-face-cull box checked, where `HullShaderHash` is 32. -/
theorem C10_no_tessellation_binds_null_witness :
    (runEvents initState
      [UIEvent.click IDC_CHECKBOX_BACK_FACE_CULL, UIEvent.select 0]).HullShaderHash = 32 ∧
    RenderCall.HSSetShader NULL ∈ (OnD3D11FrameRender true true (runEvents initState
      [UIEvent.click IDC_CHECKBOX_BACK_FACE_CULL, UIEvent.select 0])).2 ∧
    RenderCall.DSSetShader NULL ∈ (OnD3D11FrameRender true true (runEvents initState
      [UIEvent.click IDC_CHECKBOX_BACK_FACE_CULL, UIEvent.select 0])).2 := by
  have h := C10_no_tessellation_binds_null true (runEvents initState
      [UIEvent.click IDC_CHECKBOX_BACK_FACE_CULL, UIEvent.select 0]) (by decide) (by decide)
  exact ⟨by decide, h.1, h.2.1⟩

/-! The registered keys and the 'No tessellation' state -/

/-- Every registered key has exactly one of the technique bits. -/
theorem registeredKeys_one_technique :
    ∀ k ∈ registeredKeys, (k &&& PHONG ≠ 0 ∧ k &&& PNTRI = 0) ∨
      (k &&& PHONG = 0 ∧ k &&& PNTRI ≠ 0) := by
  decide!

/-- The key of a toggle state with the combo on 'No tessellation' has no technique bit. -/
theorem keyOfToggles_no_technique :
    ∀ ss dist res orient bf frust : Bool,
      keyOfToggles TESSELLATION_COMBO_NO_TESSELLATION ss dist res orient bf frust &&& PHONG = 0 ∧
      keyOfToggles TESSELLATION_COMBO_NO_TESSELLATION ss dist res orient bf frust &&& PNTRI = 0 := by
  decide!

/-- Claim C11. The 'tessellation disabled' state is not among the registered keys: every key
`AddShadersToCache` registers has exactly one of `PHONG` and `PNTRI`, so 0 is not registered,
and whatever the check boxes hold, the key `SetShaderFromUI` computes while the combo selects
'No tessellation' has neither technique bit and is not registered. -/
theorem C11_disabled_state_not_registered :
    (∀ k ∈ registeredKeys, (k &&& PHONG ≠ 0 ∧ k &&& PNTRI = 0) ∨
      (k &&& PHONG = 0 ∧ k &&& PNTRI ≠ 0)) ∧
    0 ∉ registeredKeys ∧
    (∀ s : App, s.gui.comboTess = TESSELLATION_COMBO_NO_TESSELLATION →
      (SetShaderFromUI s).HullShaderHash &&& PHONG = 0 ∧
      (SetShaderFromUI s).HullShaderHash &&& PNTRI = 0 ∧
      (SetShaderFromUI s).HullShaderHash ∉ registeredKeys) := by
  refine ⟨registeredKeys_one_technique, by decide!, ?_⟩
  intro s hc
  have hb := keyOfToggles_no_technique
    (s.gui.checked IDC_CHECKBOX_SCREEN_SPACE_ADAPTIVE)
    (s.gui.checked IDC_CHECKBOX_DISTANCE_ADAPTIVE)
    (s.gui.checked IDC_CHECKBOX_SCREEN_RESOLUTION_ADAPTIVE)
    (s.gui.checked IDC_CHECKBOX_ORIENTATION_ADAPTIVE)
    (s.gui.checked IDC_CHECKBOX_BACK_FACE_CULL)
    (s.gui.checked IDC_CHECKBOX_VIEW_FRUSTUM_CULL)
  rw [SetShaderFromUI_hash]
  unfold keyOfGUI
  rw [hc]
  refine ⟨hb.1, hb.2, ?_⟩
  intro hmem
  rcases registeredKeys_one_technique _ hmem with h | h
  · exact h.1 hb.1
  · exact h.2 hb.2

/-! Lookup and assignment in a shader map -/

theorem StdMap.find_assign_self (m : StdMap) (k : Nat) (v : Handle) :
    (m.assign k v).find k = some v := by
  induction m with
  | nil => simp [StdMap.assign, StdMap.find]
  | cons e rest ih =>
    obtain ⟨k', v'⟩ := e
    unfold StdMap.assign
    split_ifs with h1 h2
    · simp [StdMap.find]
    · simp [StdMap.find]
    · have hne : k' ≠ k := fun h => h2 h.symm
      simp [StdMap.find, hne, ih]

theorem StdMap.find_assign_other (m : StdMap) (k k2 : Nat) (v : Handle) (hne : k2 ≠ k) :
    (m.assign k v).find k2 = m.find k2 := by
  induction m with
  | nil => simp [StdMap.assign, StdMap.find, Ne.symm hne]
  | cons e rest ih =>
    obtain ⟨k', v'⟩ := e
    unfold StdMap.assign
    split_ifs with h1 h2
    · simp [StdMap.find, Ne.symm hne]
    · subst h2
      simp [StdMap.find, Ne.symm hne]
    · by_cases hk : k' = k2
      · simp [StdMap.find, hk]
      · simp [StdMap.find, hk, ih]

theorem StdMap.mem_keys_iff_find (m : StdMap) (k : Nat) :
    k ∈ m.keys ↔ m.find k ≠ none := by
  induction m with
  | nil => simp [StdMap.keys, StdMap.find]
  | cons e rest ih =>
    obtain ⟨k', v'⟩ := e
    by_cases hk : k' = k
    · simp [StdMap.keys, StdMap.find, hk]
    · have hk' : ¬ k = k' := fun h => hk h.symm
      simp only [StdMap.keys] at ih
      simp [StdMap.keys, StdMap.find, hk, hk', ih]

/-- Assigning to a key the ordered map already holds keeps the key sequence. -/
theorem StdMap.keys_assign_of_mem (m : StdMap) (k : Nat) (v : Handle) (ho : m.Ordered)
    (hk : k ∈ m.keys) : (m.assign k v).keys = m.keys := by
  induction m with
  | nil => simp [StdMap.keys] at hk
  | cons e rest ih =>
    obtain ⟨k', v'⟩ := e
    unfold StdMap.Ordered StdMap.keys at ho
    simp only [List.map_cons, List.sorted_cons] at ho
    simp only [StdMap.keys, List.map_cons, List.mem_cons] at hk
    unfold StdMap.assign
    split_ifs with h1 h2
    · exfalso
      rcases hk with hk | hk
      · omega
      · have := ho.1 k hk
        omega
    · simp [StdMap.keys, h2]
    · rcases hk with hk | hk
      · exact absurd hk h2
      · have := ih ho.2 hk
        simp only [StdMap.keys] at this
        simp [StdMap.keys, this]

/-- Witness for claim C11: 'No tessellation' with the back-face-cull box checked gives the
key 32, which has no technique bit and is not registered. -/
theorem C11_disabled_state_not_registered_witness :
    (SetShaderFromUI (toggleState TESSELLATION_COMBO_NO_TESSELLATION
      false false false false true false)).HullShaderHash = 32 ∧
    (SetShaderFromUI (toggleState TESSELLATION_COMBO_NO_TESSELLATION
      false false false false true false)).HullShaderHash ∉ registeredKeys :=
  ⟨by decide, (C11_disabled_state_not_registered.2.2 (toggleState
    TESSELLATION_COMBO_NO_TESSELLATION false false false false true false) rfl).2.2⟩

/-! Re-registration -/

@[simp] theorem Cache_hull (k : Nat) (s : App) :
    (Cache k s).g_HullShaders = s.g_HullShaders.assign k NULL := rfl

@[simp] theorem Cache_domain (k : Nat) (s : App) :
    (Cache k s).g_DomainShaders = s.g_DomainShaders.assign k NULL := rfl

theorem Cache_shaderCache (k : Nat) (s : App) :
    (Cache k s).shaderCache = s.shaderCache ++
      [{ ppShader := Slot.hull k, shaderType := ShaderType.SHADER_TYPE_HULL,
         target := "hs_5_0", entryPoint := "HS_PNTriangles",
         sourceFile := "SilhouetteTessellation11.hlsl",
         uNumMacros := (shaderMacros k).2, pMacros := (shaderMacros k).1 },
       { ppShader := Slot.domain k, shaderType := ShaderType.SHADER_TYPE_DOMAIN,
         target := "ds_5_0", entryPoint := "DS_PNTriangles",
         sourceFile := "SilhouetteTessellation11.hlsl",
         uNumMacros := (shaderMacros k).2, pMacros := (shaderMacros k).1 }] := by
  simp [Cache, App.AddShader]

/-- Counterexample to claim C12 as stated: with the key 128 mapped to the compiled handles 7
and 9, calling `Cache(128)` again leaves both entries `NULL`. -/
theorem C12_counterexample :
    (withMaps [(128, 7)] [(128, 9)]).g_HullShaders.find 128 = some 7 ∧
    (withMaps [(128, 7)] [(128, 9)]).g_DomainShaders.find 128 = some 9 ∧
    (Cache 128 (withMaps [(128, 7)] [(128, 9)])).g_HullShaders.find 128 = some NULL ∧
    (Cache 128 (withMaps [(128, 7)] [(128, 9)])).g_DomainShaders.find 128 = some NULL := by
  refine ⟨by decide, by decide, by decide, by decide⟩

/-- Claim C12, amended. Calling `Cache(k)` for a key both maps already hold is not a no-op
on the entry: it keeps the key sequences of both maps and every entry at another key, but
resets `g_HullShaders[k]` and `g_DomainShaders[k]` to `NULL`, whatever handles they held, and
issues a further hull and a further domain request for these two entries. -/
theorem C12_cache_again_resets_entry (k : Nat) (s : App)
    (hoh : s.g_HullShaders.Ordered) (hod : s.g_DomainShaders.Ordered)
    (hkh : k ∈ s.g_HullShaders.keys) (hkd : k ∈ s.g_DomainShaders.keys) :
    (Cache k s).g_HullShaders.keys = s.g_HullShaders.keys ∧
    (Cache k s).g_DomainShaders.keys = s.g_DomainShaders.keys ∧
    (Cache k s).g_HullShaders.find k = some NULL ∧
    (Cache k s).g_DomainShaders.find k = some NULL ∧
    (∀ k2, k2 ≠ k → (Cache k s).g_HullShaders.find k2 = s.g_HullShaders.find k2) ∧
    (∀ k2, k2 ≠ k → (Cache k s).g_DomainShaders.find k2 = s.g_DomainShaders.find k2) ∧
    (∃ rh rd : ShaderRequest, (Cache k s).shaderCache = s.shaderCache ++ [rh, rd] ∧
      rh.ppShader = Slot.hull k ∧ rd.ppShader = Slot.domain k) := by
  refine ⟨?_, ?_, ?_, ?_, ?_, ?_, ?_⟩
  · rw [Cache_hull]; exact StdMap.keys_assign_of_mem _ k NULL hoh hkh
  · rw [Cache_domain]; exact StdMap.keys_assign_of_mem _ k NULL hod hkd
  · rw [Cache_hull]; exact StdMap.find_assign_self _ k NULL
  · rw [Cache_domain]; exact StdMap.find_assign_self _ k NULL
  · intro k2 h; rw [Cache_hull]; exact StdMap.find_assign_other _ k k2 NULL h
  · intro k2 h; rw [Cache_domain]; exact StdMap.find_assign_other _ k k2 NULL h
  · exact ⟨_, _, Cache_shaderCache k s, rfl, rfl⟩

/-- Witness for claim C12 (amended): with 128 and 166 mapped to compiled handles,
`Cache(166)` keeps both keys and the entry of 128 and resets the entry of 166. -/
theorem C12_cache_again_resets_entry_witness :
    (Cache 166 (withMaps [(128, 7), (166, 3)] [(128, 9), (166, 5)])).g_HullShaders.keys
      = [128, 166] ∧
    (Cache 166 (withMaps [(128, 7), (166, 3)] [(128, 9), (166, 5)])).g_HullShaders.find 166
      = some NULL ∧
    (Cache 166 (withMaps [(128, 7), (166, 3)] [(128, 9), (166, 5)])).g_HullShaders.find 128
      = some 7 := by
  have h := C12_cache_again_resets_entry 166
    (withMaps [(128, 7), (166, 3)] [(128, 9), (166, 5)])
    (by unfold StdMap.Ordered; decide) (by unfold StdMap.Ordered; decide)
    (by decide) (by decide)
  exact ⟨h.1, h.2.2.1, (h.2.2.2.2.1 128 (by decide)).trans (by decide)⟩

/-! The requests `AddShadersToCache` issues -/

/-- From any state, `AddShadersToCache` hands `issuedRequests` to `AddShader`, in that
order. -/
theorem AddShadersToCache_shaderCache (s : App) :
    (AddShadersToCache s).shaderCache = s.shaderCache ++ issuedRequests := by
  have h := AddShadersToCache_rel (fun a b => a.shaderCache = s.shaderCache ++ b.shaderCache)
    (fun r a b h => by simp [App.AddShader, h])
    (fun f a b h => by simp [Cache, App.AddShader, h])
    s staticInit (by simp [staticInit])
  exact h

/-- Claim C13. One run of `AddShadersToCache` issues exactly 164 `AddShader` requests: 2
vertex, 80 hull, 80 domain and 2 pixel; for every registered key exactly one request targets
its `g_HullShaders` entry and exactly one its `g_DomainShaders` entry, these are a hull and
a domain request, and no hull or domain request targets anything else. -/
theorem C13_each_variant_submitted_once :
    (∀ s : App, (AddShadersToCache s).shaderCache = s.shaderCache ++ issuedRequests) ∧
    issuedRequests.length = 164 ∧
    countType ShaderType.SHADER_TYPE_VERTEX issuedRequests = 2 ∧
    countType ShaderType.SHADER_TYPE_HULL issuedRequests = 80 ∧
    countType ShaderType.SHADER_TYPE_DOMAIN issuedRequests = 80 ∧
    countType ShaderType.SHADER_TYPE_PIXEL issuedRequests = 2 ∧
    (∀ k ∈ registeredKeys, countSlot (Slot.hull k) issuedRequests = 1 ∧
      countSlot (Slot.domain k) issuedRequests = 1) ∧
    (∀ r ∈ issuedRequests, r.shaderType = ShaderType.SHADER_TYPE_HULL ↔
      ∃ k ∈ registeredKeys, r.ppShader = Slot.hull k) ∧
    (∀ r ∈ issuedRequests, r.shaderType = ShaderType.SHADER_TYPE_DOMAIN ↔
      ∃ k ∈ registeredKeys, r.ppShader = Slot.domain k) := by
  refine ⟨AddShadersToCache_shaderCache, by decide!, by decide!, by decide!, by decide!,
    by decide!, by decide!, by decide!, by decide!⟩

/-! Canonical keys -/

theorem bool_eq_of_iff {P Q : Prop} {a b : Bool} (hP : P ↔ a = true) (hQ : Q ↔ b = true)
    (h : P ↔ Q) : a = b := by
  have : a = true ↔ b = true := hP.symm.trans (h.trans hQ)
  cases a <;> cases b <;> simp_all

/-- Claim C14. The eight flag constants are pairwise disjoint single bits, and for two
toggle states with the combo on PN or Phong `SetShaderFromUI` yields equal `HullShaderHash`
values if and only if the states agree on the technique and on all six check boxes. -/
theorem C14_canonical_keys (s1 s2 : App)
    (h1 : s1.gui.comboTess = TESSELLATION_COMBO_PN_TESSELLATION ∨
      s1.gui.comboTess = TESSELLATION_COMBO_PHONG_TESSELLATION)
    (h2 : s2.gui.comboTess = TESSELLATION_COMBO_PN_TESSELLATION ∨
      s2.gui.comboTess = TESSELLATION_COMBO_PHONG_TESSELLATION) :
    (∀ a ∈ [SS_ADAPT, DIST_ADAPT, RES_ADAPT, ORIENT_ADAPT, BF_CULL, FRUST_CULL, PHONG, PNTRI],
      ∃ n < 32, a = 2 ^ n) ∧
    [SS_ADAPT, DIST_ADAPT, RES_ADAPT, ORIENT_ADAPT, BF_CULL, FRUST_CULL, PHONG, PNTRI].Pairwise
      (fun a b => a &&& b = 0) ∧
    ((SetShaderFromUI s1).HullShaderHash = (SetShaderFromUI s2).HullShaderHash ↔
      s1.gui.comboTess = s2.gui.comboTess ∧
      ∀ c ∈ tessCheckboxes, s1.gui.checked c = s2.gui.checked c) := by
  refine ⟨by decide, by decide, ?_⟩
  rw [SetShaderFromUI_hash, SetShaderFromUI_hash]
  constructor
  · intro he
    have b1 := keyOfToggles_bits _ (mem_pn_phong h1)
      (s1.gui.checked IDC_CHECKBOX_SCREEN_SPACE_ADAPTIVE)
      (s1.gui.checked IDC_CHECKBOX_DISTANCE_ADAPTIVE)
      (s1.gui.checked IDC_CHECKBOX_SCREEN_RESOLUTION_ADAPTIVE)
      (s1.gui.checked IDC_CHECKBOX_ORIENTATION_ADAPTIVE)
      (s1.gui.checked IDC_CHECKBOX_BACK_FACE_CULL)
      (s1.gui.checked IDC_CHECKBOX_VIEW_FRUSTUM_CULL)
    have b2 := keyOfToggles_bits _ (mem_pn_phong h2)
      (s2.gui.checked IDC_CHECKBOX_SCREEN_SPACE_ADAPTIVE)
      (s2.gui.checked IDC_CHECKBOX_DISTANCE_ADAPTIVE)
      (s2.gui.checked IDC_CHECKBOX_SCREEN_RESOLUTION_ADAPTIVE)
      (s2.gui.checked IDC_CHECKBOX_ORIENTATION_ADAPTIVE)
      (s2.gui.checked IDC_CHECKBOX_BACK_FACE_CULL)
      (s2.gui.checked IDC_CHECKBOX_VIEW_FRUSTUM_CULL)
    unfold keyOfGUI at he
    rw [← he] at b2
    obtain ⟨p1, p2, p3, p4, p5, p6, p7, _⟩ := b1
    obtain ⟨q1, q2, q3, q4, q5, q6, q7, _⟩ := b2
    constructor
    · have hpn : s1.gui.comboTess = TESSELLATION_COMBO_PN_TESSELLATION ↔
          s2.gui.comboTess = TESSELLATION_COMBO_PN_TESSELLATION := p7.symm.trans q7
      rcases h1 with a | a <;> rcases h2 with b | b
      · rw [a, b]
      · exact absurd (hpn.mp a) (by rw [b]; decide)
      · exact absurd (hpn.mpr b) (by rw [a]; decide)
      · rw [a, b]
    · intro c hc
      simp only [tessCheckboxes, List.mem_cons, List.mem_singleton, List.not_mem_nil,
        or_false] at hc
      rcases hc with rfl | rfl | rfl | rfl | rfl | rfl
      · exact bool_eq_of_iff p1 q1 Iff.rfl
      · exact bool_eq_of_iff p2 q2 Iff.rfl
      · exact bool_eq_of_iff p3 q3 Iff.rfl
      · exact bool_eq_of_iff p4 q4 Iff.rfl
      · exact bool_eq_of_iff p5 q5 Iff.rfl
      · exact bool_eq_of_iff p6 q6 Iff.rfl
  · rintro ⟨hc, hb⟩
    unfold keyOfGUI
    rw [hc, hb _ (by decide), hb _ (by decide), hb _ (by decide), hb _ (by decide),
      hb _ (by decide), hb _ (by decide)]

/-- Witness for claim C14: Phong with distance checked and Phong with resolution checked get
different keys, 130 and 132. -/
theorem C14_canonical_keys_witness :
    (SetShaderFromUI (toggleState TESSELLATION_COMBO_PHONG_TESSELLATION
      false true false false false false)).HullShaderHash = 130 ∧
    (SetShaderFromUI (toggleState TESSELLATION_COMBO_PHONG_TESSELLATION
      false false true false false false)).HullShaderHash = 132 ∧
    ¬ ((toggleState TESSELLATION_COMBO_PHONG_TESSELLATION
        false true false false false false).gui.comboTess =
      (toggleState TESSELLATION_COMBO_PHONG_TESSELLATION
        false false true false false false).gui.comboTess ∧
      ∀ c ∈ tessCheckboxes,
        (toggleState TESSELLATION_COMBO_PHONG_TESSELLATION
          false true false false false false).gui.checked c =
        (toggleState TESSELLATION_COMBO_PHONG_TESSELLATION
          false false true false false false).gui.checked c) := by
  have h := (C14_canonical_keys
    (toggleState TESSELLATION_COMBO_PHONG_TESSELLATION false true false false false false)
    (toggleState TESSELLATION_COMBO_PHONG_TESSELLATION false false true false false false)
    (Or.inr rfl) (Or.inr rfl)).2.2
  refine ⟨by decide, by decide, fun hx => ?_⟩
  have he := h.mpr hx
  revert he
  decide

/-! The render-path lookup -/

/-- On a key the map holds, `operator[]` leaves the map as it is. -/
theorem StdMap.subscript_of_mem (m : StdMap) (k : Nat) (hk : k ∈ m.keys) :
    (m.subscript k).1 = m := by
  have h := (StdMap.mem_keys_iff_find m k).mp hk
  unfold StdMap.subscript
  cases hf : m.find k with
  | none => exact absurd hf h
  | some v => rfl

/-- Counterexample to claim C15 as stated: with Phong selected, `HullShaderHash = 128` and
both maps empty (128 was not registered), one frame leaves the entry `128 ↦ NULL` in each
map. -/
theorem C15_counterexample :
    initState.settingsDlgActive = false ∧
    initState.gui.comboTess = TESSELLATION_COMBO_PHONG_TESSELLATION ∧
    initState.HullShaderHash = 128 ∧
    initState.g_HullShaders = [] ∧ initState.g_DomainShaders = [] ∧
    (OnD3D11FrameRender true true initState).1.g_HullShaders = [(128, NULL)] ∧
    (OnD3D11FrameRender true true initState).1.g_DomainShaders = [(128, NULL)] := by
  refine ⟨by decide, by decide, by decide, by rfl, by rfl, by decide, by decide⟩

/-- Claim C15, amended. For every value of `HullShaderHash` that is a key of `g_HullShaders`
and of `g_DomainShaders`, as every key registered by `Cache` is, a frame of
`OnD3D11FrameRender` leaves both maps unchanged, with the same keys and the same handles. -/
theorem C15_lookup_of_registered_key_read_only (ready1 ready2 : Bool) (s : App)
    (hh : s.HullShaderHash ∈ s.g_HullShaders.keys)
    (hd : s.HullShaderHash ∈ s.g_DomainShaders.keys) :
    (OnD3D11FrameRender ready1 ready2 s).1.g_HullShaders = s.g_HullShaders ∧
    (OnD3D11FrameRender ready1 ready2 s).1.g_DomainShaders = s.g_DomainShaders := by
  have e1 := StdMap.subscript_of_mem _ _ hh
  have e2 := StdMap.subscript_of_mem _ _ hd
  cases ready1 <;> cases ready2 <;> cases hdlg : s.settingsDlgActive <;>
    cases hhud : s.g_bRenderHUD <;>
    by_cases hc : s.gui.comboTess = TESSELLATION_COMBO_NO_TESSELLATION <;>
    simp [OnD3D11FrameRender, renderScene, hdlg, hhud, hc, e1, e2]

/-- Witness for claim C15 (amended): after `AddShadersToCache` the key 128 of the state
`InitApp` builds is in both maps, and a frame leaves the 80 entries of each in place. -/
theorem C15_lookup_of_registered_key_read_only_witness :
    (AddShadersToCache initState).HullShaderHash = 128 ∧
    (OnD3D11FrameRender true true (AddShadersToCache initState)).1.g_HullShaders
      = (AddShadersToCache initState).g_HullShaders ∧
    (OnD3D11FrameRender true true (AddShadersToCache initState)).1.g_DomainShaders
      = (AddShadersToCache initState).g_DomainShaders := by
  have h := C15_lookup_of_registered_key_read_only true true (AddShadersToCache initState)
    (by decide!) (by decide!)
  exact ⟨by decide!, h.1, h.2⟩

/-- Claim C20. Readiness gating in `OnD3D11FrameRender` with the settings dialog inactive:
when the first `ShadersReady()` is false no mesh is drawn and neither shader map is accessed
or changed; when the second `ShadersReady()` is false the progress display is rendered, and
when it is true the progress display is not rendered. -/
theorem C20_readiness_gating (ready1 ready2 : Bool) (s : App)
    (hdlg : s.settingsDlgActive = false) :
    (ready1 = false →
      (∀ i b, RenderCall.RenderMesh i b ∉ (OnD3D11FrameRender ready1 ready2 s).2) ∧
      (∀ k, RenderCall.HullShadersSubscript k ∉ (OnD3D11FrameRender ready1 ready2 s).2) ∧
      (∀ k, RenderCall.DomainShadersSubscript k ∉ (OnD3D11FrameRender ready1 ready2 s).2) ∧
      (OnD3D11FrameRender ready1 ready2 s).1.g_HullShaders = s.g_HullShaders ∧
      (OnD3D11FrameRender ready1 ready2 s).1.g_DomainShaders = s.g_DomainShaders) ∧
    (ready2 = false → RenderCall.RenderProgress ∈ (OnD3D11FrameRender ready1 ready2 s).2) ∧
    (ready2 = true → RenderCall.RenderProgress ∉ (OnD3D11FrameRender ready1 ready2 s).2) ∧
    (ready1 = false → ready2 = false →
      (OnD3D11FrameRender ready1 ready2 s).2 = [RenderCall.RenderProgress]) := by
  cases ready1 <;> cases ready2 <;> cases hh : s.g_bRenderHUD <;>
    by_cases hc : s.gui.comboTess = TESSELLATION_COMBO_NO_TESSELLATION <;>
    simp [OnD3D11FrameRender, renderScene, hdlg, hh, hc]

/-- Witness for claim C20: a frame on the state after `AddShadersToCache` while the shaders
are not ready renders the progress display only; once they are ready it does not. -/
theorem C20_readiness_gating_witness :
    (OnD3D11FrameRender false false (AddShadersToCache initState)).2
      = [RenderCall.RenderProgress] ∧
    RenderCall.RenderProgress ∉ (OnD3D11FrameRender true true (AddShadersToCache initState)).2 :=
  ⟨(C20_readiness_gating false false (AddShadersToCache initState) (by decide!)).2.2.2 rfl rfl,
   (C20_readiness_gating true true (AddShadersToCache initState) (by decide!)).2.2.1 rfl⟩

/-! Teardown -/

theorem releaseEntries_fst (m : StdMap) : (releaseEntries m).1 = m.allNull := by
  induction m with
  | nil => rfl
  | cons e rest ih =>
    obtain ⟨k, p⟩ := e
    by_cases hp : p = NULL
    · simp [releaseEntries, SAFE_RELEASE, StdMap.allNull, hp] at ih ⊢
      exact ih
    · simp [releaseEntries, SAFE_RELEASE, StdMap.allNull, hp] at ih ⊢
      exact ih

theorem releaseEntries_snd (m : StdMap) : (releaseEntries m).2 = m.nonNull := by
  induction m with
  | nil => rfl
  | cons e rest ih =>
    obtain ⟨k, p⟩ := e
    by_cases hp : p = NULL
    · simp [releaseEntries, SAFE_RELEASE, StdMap.nonNull, hp] at ih ⊢
      exact ih
    · simp [releaseEntries, SAFE_RELEASE, StdMap.nonNull, hp] at ih ⊢
      exact ih

theorem StdMap.allNull_keys (m : StdMap) : m.allNull.keys = m.keys := by
  simp [StdMap.allNull, StdMap.keys, Function.comp_def]

theorem StdMap.allNull_nonNull (m : StdMap) : m.allNull.nonNull = [] := by
  simp only [StdMap.allNull, StdMap.nonNull, List.filter_eq_nil_iff, List.mem_map]
  rintro e ⟨x, _, rfl⟩
  simp

theorem StdMap.find_allNull (m : StdMap) : ∀ k ∈ m.keys, m.allNull.find k = some NULL := by
  induction m with
  | nil => intro k hk; simp [StdMap.keys] at hk
  | cons e rest ih =>
    obtain ⟨k', v'⟩ := e
    intro k hk
    by_cases h : k' = k
    · simp [StdMap.allNull, StdMap.find, h]
    · have hk2 : k ∈ StdMap.keys rest := by
        simp only [StdMap.keys, List.map_cons, List.mem_cons] at hk
        rcases hk with hk | hk
        · exact absurd hk.symm h
        · exact hk
      have := ih k hk2
      simp only [StdMap.allNull] at this
      simp [StdMap.allNull, StdMap.find, h, this]

theorem StdMap.allNull_allNull (m : StdMap) : m.allNull.allNull = m.allNull := by
  simp [StdMap.allNull, Function.comp_def]

theorem OnD3D11DestroyDevice_hull (s : App) :
    (OnD3D11DestroyDevice s).1.g_HullShaders = s.g_HullShaders.allNull := by
  simp [OnD3D11DestroyDevice, releaseEntries_fst]

theorem OnD3D11DestroyDevice_domain (s : App) :
    (OnD3D11DestroyDevice s).1.g_DomainShaders = s.g_DomainShaders.allNull := by
  simp [OnD3D11DestroyDevice, releaseEntries_fst]

theorem filterMap_const_none {α β : Type} (l : List α) :
    l.filterMap (fun _ => (none : Option β)) = [] := by
  induction l with
  | nil => rfl
  | cons a l ih => simp

theorem OnD3D11DestroyDevice_hullReleases (s : App) :
    hullReleases (OnD3D11DestroyDevice s).2 = s.g_HullShaders.nonNull := by
  simp [OnD3D11DestroyDevice, hullReleases, releaseEntries_snd, List.filterMap_append,
    List.filterMap_map, Function.comp_def, filterMap_const_none]

theorem OnD3D11DestroyDevice_domainReleases (s : App) :
    domainReleases (OnD3D11DestroyDevice s).2 = s.g_DomainShaders.nonNull := by
  simp [OnD3D11DestroyDevice, domainReleases, releaseEntries_snd, List.filterMap_append,
    List.filterMap_map, Function.comp_def, filterMap_const_none]

theorem StdMap.Ordered.nodup {m : StdMap} (h : m.Ordered) : m.Nodup := by
  unfold StdMap.Ordered at h
  have hn : m.keys.Nodup := h.nodup
  exact List.Nodup.of_map _ hn

theorem StdMap.nonNull_nodup (m : StdMap) (h : m.Ordered) : m.nonNull.Nodup :=
  h.nodup.sublist (List.filter_sublist _)

theorem StdMap.mem_nonNull (m : StdMap) (k : Nat) (p : Handle) :
    (k, p) ∈ m.nonNull ↔ (k, p) ∈ m ∧ p ≠ NULL := by
  simp [StdMap.nonNull]

/-- Claim C16. Teardown releases every handle exactly once: the calls of `Release` that
`OnD3D11DestroyDevice` makes on `g_HullShaders` are, in iteration order, exactly the entries
with a non-null handle, one call per entry and none on a null entry; likewise for
`g_DomainShaders`; afterwards every entry of both maps is null. -/
theorem C16_teardown_releases_once (s : App) :
    hullReleases (OnD3D11DestroyDevice s).2 = s.g_HullShaders.nonNull ∧
    domainReleases (OnD3D11DestroyDevice s).2 = s.g_DomainShaders.nonNull ∧
    (∀ k p, (k, p) ∈ hullReleases (OnD3D11DestroyDevice s).2 ↔
      (k, p) ∈ s.g_HullShaders ∧ p ≠ NULL) ∧
    (∀ k p, (k, p) ∈ domainReleases (OnD3D11DestroyDevice s).2 ↔
      (k, p) ∈ s.g_DomainShaders ∧ p ≠ NULL) ∧
    (s.g_HullShaders.Ordered → (hullReleases (OnD3D11DestroyDevice s).2).Nodup) ∧
    (s.g_DomainShaders.Ordered → (domainReleases (OnD3D11DestroyDevice s).2).Nodup) ∧
    (∀ e ∈ (OnD3D11DestroyDevice s).1.g_HullShaders, e.2 = NULL) ∧
    (∀ e ∈ (OnD3D11DestroyDevice s).1.g_DomainShaders, e.2 = NULL) := by
  rw [OnD3D11DestroyDevice_hullReleases, OnD3D11DestroyDevice_domainReleases,
    OnD3D11DestroyDevice_hull, OnD3D11DestroyDevice_domain]
  refine ⟨rfl, rfl, StdMap.mem_nonNull _, StdMap.mem_nonNull _, StdMap.nonNull_nodup _,
    StdMap.nonNull_nodup _, ?_, ?_⟩
  · intro e he
    simp only [StdMap.allNull, List.mem_map] at he
    obtain ⟨x, _, rfl⟩ := he
    rfl
  · intro e he
    simp only [StdMap.allNull, List.mem_map] at he
    obtain ⟨x, _, rfl⟩ := he
    rfl

/-- Witness for claim C16: with 128 mapped to the handle 7 and 166 to `NULL` in the ordered
map `g_HullShaders`, the only `Release` on it is the one on the entry of 128. -/
theorem C16_teardown_releases_once_witness :
    hullReleases (OnD3D11DestroyDevice (withMaps [(128, 7), (166, NULL)] [(128, 9)])).2
      = [(128, 7)] ∧
    (hullReleases (OnD3D11DestroyDevice (withMaps [(128, 7), (166, NULL)] [(128, 9)])).2).Nodup ∧
    (OnD3D11DestroyDevice (withMaps [(128, 7), (166, NULL)] [(128, 9)])).1.g_HullShaders
      = [(128, NULL), (166, NULL)] := by
  have h := C16_teardown_releases_once (withMaps [(128, 7), (166, NULL)] [(128, 9)])
  exact ⟨h.1.trans (by decide), h.2.2.2.2.1 (by unfold StdMap.Ordered; decide), by decide⟩

/-- Counterexample to claim C17 as stated: with the key 128 in both maps, the maps after
`OnD3D11DestroyDevice` still hold the key, mapped to `NULL`. -/
theorem C17_counterexample :
    (OnD3D11DestroyDevice (withMaps [(128, 7)] [(128, 9)])).1.g_HullShaders = [(128, NULL)] ∧
    (OnD3D11DestroyDevice (withMaps [(128, 7)] [(128, 9)])).1.g_DomainShaders = [(128, NULL)] ∧
    (OnD3D11DestroyDevice (withMaps [(128, 7)] [(128, 9)])).1.g_HullShaders ≠ [] ∧
    (OnD3D11DestroyDevice (withMaps [(128, 7)] [(128, 9)])).1.g_DomainShaders ≠ [] := by
  refine ⟨by decide, by decide, by decide, by decide⟩

/-- Claim C17, amended. `OnD3D11DestroyDevice` erases no entry: after it returns,
`g_HullShaders` and `g_DomainShaders` hold the same keys as before, each mapped to `NULL`;
the 80 keys registered by `AddShadersToCache` are all still there. -/
theorem C17_teardown_keeps_keys :
    (∀ s : App,
      (OnD3D11DestroyDevice s).1.g_HullShaders.keys = s.g_HullShaders.keys ∧
      (OnD3D11DestroyDevice s).1.g_DomainShaders.keys = s.g_DomainShaders.keys ∧
      (∀ k ∈ s.g_HullShaders.keys, (OnD3D11DestroyDevice s).1.g_HullShaders.find k = some NULL) ∧
      (∀ k ∈ s.g_DomainShaders.keys,
        (OnD3D11DestroyDevice s).1.g_DomainShaders.find k = some NULL)) ∧
    (OnD3D11DestroyDevice (AddShadersToCache initState)).1.g_HullShaders.keys.length = 80 ∧
    (OnD3D11DestroyDevice (AddShadersToCache initState)).1.g_DomainShaders.keys.length = 80 := by
  refine ⟨fun s => ?_, ?_, ?_⟩
  · rw [OnD3D11DestroyDevice_hull, OnD3D11DestroyDevice_domain]
    exact ⟨StdMap.allNull_keys _, StdMap.allNull_keys _, StdMap.find_allNull _,
      StdMap.find_allNull _⟩
  · rw [OnD3D11DestroyDevice_hull, StdMap.allNull_keys]; decide!
  · rw [OnD3D11DestroyDevice_domain, StdMap.allNull_keys]; decide!

/-- Claim C18. Idempotent teardown: a second run of `OnD3D11DestroyDevice` directly after a
first calls `Release` on no pointer and leaves the state, both shader maps included, exactly
as the first run left it. -/
theorem C18_teardown_idempotent (s : App) :
    (OnD3D11DestroyDevice (OnD3D11DestroyDevice s).1).2 = [] ∧
    (OnD3D11DestroyDevice (OnD3D11DestroyDevice s).1).1 = (OnD3D11DestroyDevice s).1 ∧
    (OnD3D11DestroyDevice (OnD3D11DestroyDevice s).1).1.g_HullShaders
      = (OnD3D11DestroyDevice s).1.g_HullShaders ∧
    (OnD3D11DestroyDevice (OnD3D11DestroyDevice s).1).1.g_DomainShaders
      = (OnD3D11DestroyDevice s).1.g_DomainShaders := by
  have key : OnD3D11DestroyDevice (OnD3D11DestroyDevice s).1
      = ((OnD3D11DestroyDevice s).1, []) := by
    by_cases hp : s.g_pDiffuseTextureSRV = NULL <;>
      simp [OnD3D11DestroyDevice, releaseEntries_fst, releaseEntries_snd,
        StdMap.allNull_allNull, StdMap.allNull_nonNull, SAFE_RELEASE, hp]
  rw [key]
  exact ⟨rfl, rfl, rfl, rfl⟩

/-! Device creation -/

/-- A run that reaches the shader-generation step with `bFirstPass` set calls
`AddShadersToCache` and `GenerateShaders` once each and clears `bFirstPass`. -/
theorem OnD3D11CreateDevice_first (env : CreateDeviceEnv) (d : Device)
    (hr : env.reachesShaderStep = true) (hf : d.bFirstPass = true) :
    (OnD3D11CreateDevice env d).1.setupCalls =
      d.setupCalls ++ [ShaderSetupCall.AddShadersToCache, ShaderSetupCall.GenerateShaders] ∧
    (OnD3D11CreateDevice env d).1.bFirstPass = false := by
  simp only [CreateDeviceEnv.reachesShaderStep, Bool.and_eq_true, Bool.not_eq_true'] at hr
  simp [OnD3D11CreateDevice, hr.1, hr.2, hf]

/-- A run with `bFirstPass` cleared makes no call of the shader-generation step. -/
theorem OnD3D11CreateDevice_later (env : CreateDeviceEnv) (d : Device)
    (hf : d.bFirstPass = false) :
    (OnD3D11CreateDevice env d).1.setupCalls = d.setupCalls ∧
    (OnD3D11CreateDevice env d).1.bFirstPass = false := by
  cases h1 : env.failedBeforeUserMesh <;> cases h2 : env.failedAfterUserMesh <;>
    simp [OnD3D11CreateDevice, h1, h2, hf]

theorem createDeviceRuns_later (runs : List ((App → App) × CreateDeviceEnv)) :
    ∀ d : Device, d.bFirstPass = false →
      (createDeviceRuns d runs).setupCalls = d.setupCalls := by
  induction runs with
  | nil => intro d _; rfl
  | cons r rest ih =>
    intro d hf
    obtain ⟨f, env⟩ := r
    have h := OnD3D11CreateDevice_later env { d with app := f d.app } hf
    simp only [createDeviceRuns]
    rw [ih _ h.2, h.1]

/-- Counterexample to claim C19 as stated: after two runs of `OnD3D11CreateDevice` that both
reach the shader-generation step, `AddShadersToCache` and `GenerateShaders` have been
invoked once each, not twice. -/
theorem C19_counterexample :
    plainEnv.reachesShaderStep = true ∧
    (createDeviceRuns startDevice [(id, plainEnv), (id, plainEnv)]).setupCalls
      = [ShaderSetupCall.AddShadersToCache, ShaderSetupCall.GenerateShaders] ∧
    (createDeviceRuns startDevice [(id, plainEnv), (id, plainEnv)]).setupCalls.count
      ShaderSetupCall.AddShadersToCache = 1 ∧
    (createDeviceRuns startDevice [(id, plainEnv), (id, plainEnv)]).setupCalls.count
      ShaderSetupCall.AddShadersToCache ≠ 2 := by
  refine ⟨by decide, by decide, by decide, by decide⟩

/-- Claim C19, amended. Enumeration and submission happen once per program run: for every
n ≥ 1, after n runs of `OnD3D11CreateDevice` that each reach the shader-generation step,
whatever changed the globals in between, `AddShadersToCache` followed by `GenerateShaders`
has been invoked exactly once, in the first run; the `static bool bFirstPass` keeps every
later run from invoking them. -/
theorem C19_setup_once_per_program (f : App → App) (env : CreateDeviceEnv)
    (rest : List ((App → App) × CreateDeviceEnv))
    (hreach : ∀ r ∈ (f, env) :: rest, r.2.reachesShaderStep = true) :
    (createDeviceRuns startDevice [(f, env)]).setupCalls
      = [ShaderSetupCall.AddShadersToCache, ShaderSetupCall.GenerateShaders] ∧
    (createDeviceRuns startDevice ((f, env) :: rest)).setupCalls
      = [ShaderSetupCall.AddShadersToCache, ShaderSetupCall.GenerateShaders] ∧
    (createDeviceRuns startDevice ((f, env) :: rest)).setupCalls.count
      ShaderSetupCall.AddShadersToCache = 1 ∧
    (createDeviceRuns startDevice ((f, env) :: rest)).setupCalls.count
      ShaderSetupCall.GenerateShaders = 1 := by
  have hr : env.reachesShaderStep = true := hreach (f, env) (List.mem_cons_self _ _)
  have h := OnD3D11CreateDevice_first env { startDevice with app := f startDevice.app } hr rfl
  have e : ∀ l, (createDeviceRuns startDevice ((f, env) :: l)).setupCalls
      = [ShaderSetupCall.AddShadersToCache, ShaderSetupCall.GenerateShaders] := by
    intro l
    simp only [createDeviceRuns]
    rw [createDeviceRuns_later l _ h.2, h.1]
    rfl
  refine ⟨e [], e rest, ?_, ?_⟩
  · rw [e rest]; decide
  · rw [e rest]; decide

/-- Witness for claim C19 (amended): three runs that reach the shader-generation step, the
second after the user selected 'PN tessellation', the third after a device destruction. -/
theorem C19_setup_once_per_program_witness :
    (createDeviceRuns startDevice
      [(id, plainEnv), (selectTessellation 1, plainEnv),
       (fun s => (OnD3D11DestroyDevice s).1, plainEnv)]).setupCalls
      = [ShaderSetupCall.AddShadersToCache, ShaderSetupCall.GenerateShaders] :=
  (C19_setup_once_per_program id plainEnv
    [(selectTessellation 1, plainEnv), (fun s => (OnD3D11DestroyDevice s).1, plainEnv)]
    (by decide)).2.1

/-! The macros `Cache` derives from the flags -/

theorem modify_length_append {α : Type} (f : α → α) (l : List α) (a : α) (r : List α) :
    (l ++ a :: r).modify f l.length = l ++ f a :: r := by
  induction l with
  | nil => simp
  | cons b l ih => simp [ih]

/-- One `if` statement of `Cache` on a state with fewer than nine names written. -/
theorem addMacro_macroState (flags bit : Nat) (name : String) (toks : List Macro)
    (h : toks.length < 9) :
    addMacro flags bit name (macroState toks) =
      macroState (toks ++ tokensOf flags [(bit, name)]) := by
  unfold addMacro macroState tokensOf
  by_cases hb : flags &&& bit ≠ 0
  · have hr : List.replicate (9 - toks.length) blankMacro
        = blankMacro :: List.replicate (9 - (toks.length + 1)) blankMacro := by
      rw [← List.replicate_succ]
      congr 1
      omega
    simp only [hb, if_true, List.filter_cons, decide_True, List.filter_nil, List.map_cons, List.map_nil,
      List.length_append, List.length_singleton, not_false_eq_true, ne_eq]
    rw [hr, modify_length_append]
    simp [blankMacro]
  · simp [hb]

theorem tokensOf_cons (flags : Nat) (e : Nat × String) (tbl : List (Nat × String)) :
    tokensOf flags (e :: tbl) = tokensOf flags [e] ++ tokensOf flags tbl := by
  unfold tokensOf
  by_cases hb : flags &&& e.1 ≠ 0 <;> simp [List.filter_cons, hb]

theorem tokensOf_length_le (flags : Nat) (tbl : List (Nat × String)) :
    (tokensOf flags tbl).length ≤ tbl.length := by
  unfold tokensOf
  rw [List.length_map]
  exact List.length_filter_le _ _

/-- The `if` statements of `Cache` for a table of flags, run on a state that leaves room
for them. -/
theorem foldl_addMacro (flags : Nat) :
    ∀ (tbl : List (Nat × String)) (toks : List Macro), toks.length + tbl.length ≤ 8 →
      tbl.foldl (fun st e => addMacro flags e.1 e.2 st) (macroState toks)
        = macroState (toks ++ tokensOf flags tbl) := by
  intro tbl
  induction tbl with
  | nil => intro toks _; simp [tokensOf]
  | cons e tbl ih =>
    intro toks h
    obtain ⟨bit, name⟩ := e
    simp only [List.length_cons] at h
    rw [List.foldl_cons, addMacro_macroState flags bit name toks (by omega)]
    have hl := tokensOf_length_le flags [(bit, name)]
    simp only [List.length_singleton] at hl
    rw [ih _ (by rw [List.length_append]; omega), tokensOf_cons flags (bit, name) tbl, List.append_assoc]

/-- The array and `flagCount` of `Cache` in terms of the specification's token function. -/
theorem shaderMacros_eq (flags : Nat) :
    shaderMacros flags = macroState (flags_to_macro_tokens flags) := by
  have h := foldl_addMacro flags flagTokenTable [] (by decide)
  simpa [flags_to_macro_tokens] using h

theorem flags_to_macro_tokens_length_le (flags : Nat) :
    (flags_to_macro_tokens flags).length ≤ 8 :=
  tokensOf_length_le flags flagTokenTable

/-- The set bits of an OR of flag constants are counted by the constants used, and the
tokens are those of the constants used. -/
theorem tokens_of_flag_subsets :
    ∀ sub ∈ flagConstants.sublists,
      (flags_to_macro_tokens (orAll sub)).length = sub.length ∧
      popCount (orAll sub) = sub.length ∧
      (flags_to_macro_tokens (orAll sub)).map (fun mc => mc.m_iValue) =
        sub.map (fun _ => (1 : Int)) := by
  decide!

/-- Claim C22. Macro derivation: the macro list `Cache` passes to `AddShader` (the first
`flagCount` elements of `ShaderMacros`) is the specification's token sequence: one entry per
set flag bit, named by the flag's identifier, with value 1, in the fixed order of the table;
the count passed is the length of that list, and for an OR of flag constants it is the
number of set bits. -/
theorem C22_macro_derivation :
    (∀ flags : Nat,
      (shaderMacros flags).1.take (shaderMacros flags).2 = flags_to_macro_tokens flags ∧
      (shaderMacros flags).2 = (flags_to_macro_tokens flags).length) ∧
    (∀ (flags : Nat) (s : App), ∃ rh rd : ShaderRequest,
      (Cache flags s).shaderCache = s.shaderCache ++ [rh, rd] ∧
      rh.pMacros.take rh.uNumMacros = flags_to_macro_tokens flags ∧
      rd.pMacros.take rd.uNumMacros = flags_to_macro_tokens flags ∧
      rh.uNumMacros = (flags_to_macro_tokens flags).length ∧
      rd.uNumMacros = (flags_to_macro_tokens flags).length) ∧
    (∀ flags : Nat, ∀ mc : Macro, mc ∈ flags_to_macro_tokens flags ↔
      ∃ e ∈ flagTokenTable, flags &&& e.1 ≠ 0 ∧ mc = { m_wsName := e.2, m_iValue := 1 }) ∧
    (∀ sub ∈ flagConstants.sublists,
      (shaderMacros (orAll sub)).2 = popCount (orAll sub) ∧
      (shaderMacros (orAll sub)).2 = sub.length) ∧
    flags_to_macro_tokens (SS_ADAPT ||| DIST_ADAPT ||| RES_ADAPT ||| ORIENT_ADAPT ||| BF_CULL |||
        FRUST_CULL ||| PHONG ||| PNTRI) =
      [{ m_wsName := "SS_ADAPT", m_iValue := 1 }, { m_wsName := "DIST_ADAPT", m_iValue := 1 },
       { m_wsName := "RES_ADAPT", m_iValue := 1 }, { m_wsName := "ORIENT_ADAPT", m_iValue := 1 },
       { m_wsName := "BF_CULL", m_iValue := 1 }, { m_wsName := "FRUST_CULL", m_iValue := 1 },
       { m_wsName := "PHONG", m_iValue := 1 }, { m_wsName := "PNTRI", m_iValue := 1 }] := by
  have key : ∀ flags : Nat,
      (shaderMacros flags).1.take (shaderMacros flags).2 = flags_to_macro_tokens flags ∧
      (shaderMacros flags).2 = (flags_to_macro_tokens flags).length := by
    intro flags
    rw [shaderMacros_eq]
    exact ⟨List.take_left _ _, rfl⟩
  refine ⟨key, ?_, ?_, ?_, by decide⟩
  · intro flags s
    exact ⟨_, _, Cache_shaderCache flags s, (key flags).1, (key flags).1, (key flags).2,
      (key flags).2⟩
  · intro flags mc
    simp only [flags_to_macro_tokens, tokensOf, List.mem_map, List.mem_filter,
      decide_eq_true_eq]
    constructor
    · rintro ⟨e, ⟨he, hb⟩, rfl⟩
      exact ⟨e, he, hb, rfl⟩
    · rintro ⟨e, he, hb, rfl⟩
      exact ⟨e, ⟨he, hb⟩, rfl⟩
  · intro sub hsub
    obtain ⟨h1, h2, _⟩ := tokens_of_flag_subsets sub hsub
    rw [(key (orAll sub)).2, h1, h2]
    exact ⟨rfl, rfl⟩

/-- Claim C23. Two jobs per key: `Cache(flags)` issues exactly two `AddShader` requests,
first the hull request (`hs_5_0`, `HS_PNTriangles`) whose output slot is the `g_HullShaders`
entry of `flags`, then the domain request (`ds_5_0`, `DS_PNTriangles`) whose output slot is
the `g_DomainShaders` entry of `flags`; both name the same source file and carry the same
macro array and count. -/
theorem C23_two_jobs_per_key (flags : Nat) (s : App) :
    ∃ rh rd : ShaderRequest,
      (Cache flags s).shaderCache = s.shaderCache ++ [rh, rd] ∧
      rh.shaderType = ShaderType.SHADER_TYPE_HULL ∧ rh.target = "hs_5_0" ∧
      rh.entryPoint = "HS_PNTriangles" ∧ rh.ppShader = Slot.hull flags ∧
      rd.shaderType = ShaderType.SHADER_TYPE_DOMAIN ∧ rd.target = "ds_5_0" ∧
      rd.entryPoint = "DS_PNTriangles" ∧ rd.ppShader = Slot.domain flags ∧
      rh.sourceFile = "SilhouetteTessellation11.hlsl" ∧ rd.sourceFile = rh.sourceFile ∧
      rd.pMacros = rh.pMacros ∧ rd.uNumMacros = rh.uNumMacros ∧
      rh.pMacros = (shaderMacros flags).1 ∧ rh.uNumMacros = (shaderMacros flags).2 ∧
      (Cache flags s).g_HullShaders.find flags ≠ none ∧
      (Cache flags s).g_DomainShaders.find flags ≠ none :=
  ⟨_, _, Cache_shaderCache flags s, rfl, rfl, rfl, rfl, rfl, rfl, rfl, rfl, rfl, rfl, rfl, rfl,
    rfl, rfl,
    by rw [Cache_hull, StdMap.find_assign_self]; simp,
    by rw [Cache_domain, StdMap.find_assign_self]; simp⟩

/-- Claim C24. Registration uses the key verbatim and touches nothing else: after
`Cache(flags)` both maps hold the key `flags` itself, mapped to `NULL`, and the entry of
either map at any other key is as before. -/
theorem C24_registration_verbatim (flags : Nat) (s : App) :
    flags ∈ (Cache flags s).g_HullShaders.keys ∧
    flags ∈ (Cache flags s).g_DomainShaders.keys ∧
    (Cache flags s).g_HullShaders.find flags = some NULL ∧
    (Cache flags s).g_DomainShaders.find flags = some NULL ∧
    (∀ k, k ≠ flags → (Cache flags s).g_HullShaders.find k = s.g_HullShaders.find k) ∧
    (∀ k, k ≠ flags → (Cache flags s).g_DomainShaders.find k = s.g_DomainShaders.find k) ∧
    (∀ k, k ≠ flags → (k ∈ (Cache flags s).g_HullShaders.keys ↔ k ∈ s.g_HullShaders.keys)) ∧
    (∀ k, k ≠ flags →
      (k ∈ (Cache flags s).g_DomainShaders.keys ↔ k ∈ s.g_DomainShaders.keys)) := by
  have h1 := StdMap.find_assign_self s.g_HullShaders flags NULL
  have h2 := StdMap.find_assign_self s.g_DomainShaders flags NULL
  have o1 := fun k (h : k ≠ flags) => StdMap.find_assign_other s.g_HullShaders flags k NULL h
  have o2 := fun k (h : k ≠ flags) => StdMap.find_assign_other s.g_DomainShaders flags k NULL h
  rw [Cache_hull, Cache_domain]
  refine ⟨?_, ?_, h1, h2, o1, o2, ?_, ?_⟩
  · rw [StdMap.mem_keys_iff_find, h1]; simp
  · rw [StdMap.mem_keys_iff_find, h2]; simp
  · intro k hk
    rw [StdMap.mem_keys_iff_find, StdMap.mem_keys_iff_find, o1 k hk]
  · intro k hk
    rw [StdMap.mem_keys_iff_find, StdMap.mem_keys_iff_find, o2 k hk]

/-- The number of names written for a registered key. -/
theorem registeredKeys_flagCount :
    ∀ k ∈ registeredKeys, 1 ≤ (flags_to_macro_tokens k).length ∧
      (flags_to_macro_tokens k).length ≤ 6 := by
  decide!

/-- Claim C27. Macro buffer bound: for every flags value `Cache` writes at most 8 names, so
`flagCount` never exceeds 8; the array keeps its 9 elements, the names written fill the
indices below `flagCount` and the elements from `flagCount` on are untouched, so every
index written is inside the array; for each registered key `flagCount` is between 1 and
6. -/
theorem C27_macro_buffer_bound :
    (∀ flags : Nat,
      (shaderMacros flags).2 ≤ 8 ∧
      (shaderMacros flags).1.length = 9 ∧
      (shaderMacros flags).1 = flags_to_macro_tokens flags ++
        List.replicate (9 - (shaderMacros flags).2) blankMacro ∧
      (∀ mc ∈ flags_to_macro_tokens flags, mc.m_wsName ≠ "")) ∧
    (∀ k ∈ registeredKeys, 1 ≤ (shaderMacros k).2 ∧ (shaderMacros k).2 ≤ 6) := by
  constructor
  · intro flags
    have hl := flags_to_macro_tokens_length_le flags
    rw [shaderMacros_eq]
    refine ⟨hl, ?_, rfl, ?_⟩
    · simp only [macroState, List.length_append, List.length_replicate]
      omega
    · intro mc hmc
      simp only [flags_to_macro_tokens, tokensOf, List.mem_map, List.mem_filter] at hmc
      obtain ⟨e, ⟨he, -⟩, rfl⟩ := hmc
      revert e
      decide
  · intro k hk
    rw [shaderMacros_eq]
    exact registeredKeys_flagCount k hk

/-! The dialog after the handlers -/

/-- Claim C25. After the user checks 'Screen Space Edge Size' the distance and resolution
boxes are disabled, but when the user then selects an item of the tessellation combo box the
`IDC_COMBO_TESSELLATION` case enables them again while the screen-space box stays checked:
a reachable state with the screen-space box checked and both boxes enabled. -/
theorem C25_checked_with_enabled_boxes :
    (runEvents initState
      [UIEvent.click IDC_CHECKBOX_SCREEN_SPACE_ADAPTIVE]).gui.checked
        IDC_CHECKBOX_SCREEN_SPACE_ADAPTIVE = true ∧
    (runEvents initState
      [UIEvent.click IDC_CHECKBOX_SCREEN_SPACE_ADAPTIVE]).gui.enabled
        IDC_CHECKBOX_DISTANCE_ADAPTIVE = false ∧
    (runEvents initState
      [UIEvent.click IDC_CHECKBOX_SCREEN_SPACE_ADAPTIVE]).gui.enabled
        IDC_CHECKBOX_SCREEN_RESOLUTION_ADAPTIVE = false ∧
    UserReachable (runEvents initState
      [UIEvent.click IDC_CHECKBOX_SCREEN_SPACE_ADAPTIVE, UIEvent.select 1]) ∧
    Reachable (runEvents initState
      [UIEvent.click IDC_CHECKBOX_SCREEN_SPACE_ADAPTIVE, UIEvent.select 1]) ∧
    (runEvents initState
      [UIEvent.click IDC_CHECKBOX_SCREEN_SPACE_ADAPTIVE, UIEvent.select 1]).gui.checked
        IDC_CHECKBOX_SCREEN_SPACE_ADAPTIVE = true ∧
    (runEvents initState
      [UIEvent.click IDC_CHECKBOX_SCREEN_SPACE_ADAPTIVE, UIEvent.select 1]).gui.enabled
        IDC_CHECKBOX_DISTANCE_ADAPTIVE = true ∧
    (runEvents initState
      [UIEvent.click IDC_CHECKBOX_SCREEN_SPACE_ADAPTIVE, UIEvent.select 1]).gui.enabled
        IDC_CHECKBOX_SCREEN_RESOLUTION_ADAPTIVE = true := by
  have hu : UserReachable (runEvents initState
      [UIEvent.click IDC_CHECKBOX_SCREEN_SPACE_ADAPTIVE, UIEvent.select 1]) :=
    UserReachable.runEvents _ _ UserReachable.init (by decide)
  exact ⟨by decide, by decide, by decide, hu, hu.reachable, by decide, by decide, by decide⟩

theorem SetShaderFromUI_hash_idem (s : App) :
    (SetShaderFromUI s).HullShaderHash = (SetShaderFromUI (SetShaderFromUI s)).HullShaderHash := by
  rw [SetShaderFromUI_hash (SetShaderFromUI s)]
  exact SetShaderFromUI_synced s

/-- Claim C26. `HullShaderHash` is always in sync with the GUI: after `InitApp` it is `PHONG`
(128); after every `OnGUIEvent` step for the tessellation combo box or one of the six check
boxes, from any state, it is the value `SetShaderFromUI` computes from the resulting combo
index and check boxes, those the handler unchecked included; so it is in every reachable
state. -/
theorem C26_hash_in_sync :
    initState.HullShaderHash = PHONG ∧ PHONG = 128 ∧
    initState.HullShaderHash = (SetShaderFromUI initState).HullShaderHash ∧
    (∀ (s : App) (i : Nat), (selectTessellation i s).HullShaderHash =
      (SetShaderFromUI (selectTessellation i s)).HullShaderHash) ∧
    (∀ (s : App) (c : Ctl), c ∈ tessCheckboxes → (clickCheckbox c s).HullShaderHash =
      (SetShaderFromUI (clickCheckbox c s)).HullShaderHash) ∧
    (∀ s : App, Reachable s → s.HullShaderHash = (SetShaderFromUI s).HullShaderHash) := by
  refine ⟨by decide, rfl, SetShaderFromUI_hash_idem _, ?_, ?_, ?_⟩
  · intro s i
    unfold selectTessellation
    simp only [OnGUIEvent]
    exact SetShaderFromUI_hash_idem _
  · intro s c hc
    simp only [tessCheckboxes, List.mem_cons, List.mem_singleton, List.not_mem_nil,
      or_false] at hc
    rcases hc with rfl | rfl | rfl | rfl | rfl | rfl <;>
      unfold clickCheckbox <;> simp only [OnGUIEvent] <;>
      exact SetShaderFromUI_hash_idem _
  · intro s hs
    rw [SetShaderFromUI_hash]
    exact hs.guiInv.2.1

theorem checkboxBlock_enabled (box slider : Ctl) (bit : Nat) (s : App) (x : Ctl) :
    (checkboxBlock box slider bit s).gui.enabled x =
      if x = slider then s.gui.checked box else s.gui.enabled x := by
  unfold checkboxBlock
  cases s.gui.checked box <;> simp [App.orHash, App.SetEnabled, GUI.SetEnabled]

/-- Claim C28. After `SetShaderFromUI` returns, for every combo index and every setting of
the six check boxes, each of the six parameter sliders is enabled exactly when its check
box is checked; nothing of the disabling done in the 'No tessellation' branch is left. -/
theorem C28_sliders_follow_checkboxes (s : App) :
    (SetShaderFromUI s).gui.enabled IDC_SLIDER_EDGE_SIZE
      = s.gui.checked IDC_CHECKBOX_SCREEN_SPACE_ADAPTIVE ∧
    (SetShaderFromUI s).gui.enabled IDC_SLIDER_RANGE_SCALE
      = s.gui.checked IDC_CHECKBOX_DISTANCE_ADAPTIVE ∧
    (SetShaderFromUI s).gui.enabled IDC_SLIDER_SCREEN_RESOLUTION_SCALE
      = s.gui.checked IDC_CHECKBOX_SCREEN_RESOLUTION_ADAPTIVE ∧
    (SetShaderFromUI s).gui.enabled IDC_SLIDER_SILHOUTTE_EPSILON
      = s.gui.checked IDC_CHECKBOX_ORIENTATION_ADAPTIVE ∧
    (SetShaderFromUI s).gui.enabled IDC_SLIDER_BACK_FACE_CULL_EPSILON
      = s.gui.checked IDC_CHECKBOX_BACK_FACE_CULL ∧
    (SetShaderFromUI s).gui.enabled IDC_SLIDER_VIEW_FRUSTUM_CULL_EPSILON
      = s.gui.checked IDC_CHECKBOX_VIEW_FRUSTUM_CULL ∧
    (SetShaderFromUI s).gui.checked = s.gui.checked := by
  unfold SetShaderFromUI
  simp only [checkboxBlock_enabled, checkboxBlock_checked]
  refine ⟨?_, ?_, ?_, ?_, ?_, ?_, ?_⟩ <;> split_ifs <;> simp_all [App.orHash]

/-- Witness for claim C28: with 'No tessellation' selected and only the back-face-cull box
checked, the back-face epsilon slider ends enabled and the edge-size slider disabled. -/
theorem C28_sliders_follow_checkboxes_witness :
    (SetShaderFromUI (toggleState TESSELLATION_COMBO_NO_TESSELLATION
      false false false false true false)).gui.enabled IDC_SLIDER_BACK_FACE_CULL_EPSILON = true ∧
    (SetShaderFromUI (toggleState TESSELLATION_COMBO_NO_TESSELLATION
      false false false false true false)).gui.enabled IDC_SLIDER_EDGE_SIZE = false := by
  have h := C28_sliders_follow_checkboxes (toggleState TESSELLATION_COMBO_NO_TESSELLATION
      false false false false true false)
  exact ⟨h.2.2.2.2.1.trans rfl, h.1.trans rfl⟩

/-! The sliders -/

/-- Claim C29. Tessellation-factor slider round trip: for a slider value `v` from 1 to 8 the
`IDC_SLIDER_TESS_FACTOR` handler sets `g_uTessFactor = 2*v - 1`, an odd number from 1 to 15,
and the position formula of `InitApp`, `1 + (g_uTessFactor - 1) / 2` in unsigned
arithmetic, maps that factor back to `v`; the initial factor 5 has position 3. -/
theorem C29_tess_factor_round_trip (v : Int) (h1 : 1 ≤ v) (h8 : v ≤ 8) (s : App) :
    ((moveSlider IDC_SLIDER_TESS_FACTOR v s).g_uTessFactor : Int) = 2 * v - 1 ∧
    (moveSlider IDC_SLIDER_TESS_FACTOR v s).g_uTessFactor % 2 = 1 ∧
    1 ≤ (moveSlider IDC_SLIDER_TESS_FACTOR v s).g_uTessFactor ∧
    (moveSlider IDC_SLIDER_TESS_FACTOR v s).g_uTessFactor ≤ 15 ∧
    initialSliderValue (moveSlider IDC_SLIDER_TESS_FACTOR v s) IDC_SLIDER_TESS_FACTOR = v ∧
    staticInit.g_uTessFactor = 5 ∧
    initialSliderValue staticInit IDC_SLIDER_TESS_FACTOR = 3 ∧
    initState.gui.sliderValue IDC_SLIDER_TESS_FACTOR = 3 := by
  have hf : (moveSlider IDC_SLIDER_TESS_FACTOR v s).g_uTessFactor
      = ((toUnsigned v + 4294967296 - 1) * 2 + 1) % 4294967296 := by
    simp [moveSlider, OnGUIEvent]
  have hp : initialSliderValue (moveSlider IDC_SLIDER_TESS_FACTOR v s) IDC_SLIDER_TESS_FACTOR
      = Int.ofNat ((1 + ((moveSlider IDC_SLIDER_TESS_FACTOR v s).g_uTessFactor
          + 4294967296 - 1) % 4294967296 / 2) % 4294967296) := rfl
  rw [hp, hf]
  refine ⟨?_, ?_, ?_, ?_, ?_, rfl, by decide, by decide!⟩ <;>
    interval_cases v <;> decide

/-- Witness for claim C29: the slider value 8 gives the factor 15, whose position is 8. -/
theorem C29_tess_factor_round_trip_witness :
    (moveSlider IDC_SLIDER_TESS_FACTOR 8 initState).g_uTessFactor = 15 ∧
    initialSliderValue (moveSlider IDC_SLIDER_TESS_FACTOR 8 initState) IDC_SLIDER_TESS_FACTOR
      = 8 := by
  have h := C29_tess_factor_round_trip 8 (by decide) (by decide) initState
  exact ⟨by decide!, h.2.2.2.2.1⟩

/-- Claim C30. With the sliders at the positions `InitApp` computes from the initial values,
the handlers of the back-face epsilon, range scale, resolution scale and silhouette epsilon
sliders return the initial values 0.5, 1.0, 1.0 and 0.25, but the handler of the
view-frustum epsilon slider returns 1.0 for the initial value 0.5: `InitApp` places the
slider at `0.5 * 100 = 50` and the handler divides by 50. -/
theorem C30_view_frustum_round_trip_fails :
    staticInit.g_fViewFrustumCullEpsilon = 1 / 2 ∧
    initState.g_fViewFrustumCullEpsilon = 1 / 2 ∧
    initState.gui.sliderValue IDC_SLIDER_VIEW_FRUSTUM_CULL_EPSILON = 50 ∧
    (OnGUIEvent IDC_SLIDER_VIEW_FRUSTUM_CULL_EPSILON initState).g_fViewFrustumCullEpsilon = 1 ∧
    (OnGUIEvent IDC_SLIDER_VIEW_FRUSTUM_CULL_EPSILON initState).g_fViewFrustumCullEpsilon
      ≠ initState.g_fViewFrustumCullEpsilon ∧
    (OnGUIEvent IDC_SLIDER_BACK_FACE_CULL_EPSILON initState).g_fBackFaceCullEpsilon
      = initState.g_fBackFaceCullEpsilon ∧
    (OnGUIEvent IDC_SLIDER_RANGE_SCALE initState).g_fRangeScale = initState.g_fRangeScale ∧
    (OnGUIEvent IDC_SLIDER_SCREEN_RESOLUTION_SCALE initState).g_fResolutionScale
      = initState.g_fResolutionScale ∧
    (OnGUIEvent IDC_SLIDER_SILHOUTTE_EPSILON initState).g_fSilhoutteEpsilon
      = initState.g_fSilhoutteEpsilon ∧
    initState.g_fBackFaceCullEpsilon = 1 / 2 ∧ initState.g_fRangeScale = 1 ∧
    initState.g_fResolutionScale = 1 ∧ initState.g_fSilhoutteEpsilon = 1 / 4 := by
  refine ⟨by decide!, by decide!, by decide!, by decide!, by decide!, by decide!, by decide!,
    by decide!, by decide!, by decide!, by decide!, by decide!, by decide!⟩

end SilhouetteTessellation11
